import Mathlib

/-!
# syslog on the Windows event log: a shallow embedding of `syslog-on-event-log.cpp`

The facade class `syslog_win32_impl::syslog` is embedded as a record of its three data
members with explicit state passing.  Every operation returns the new state together with
the list of platform calls and stream writes it performed, in order.  The platform
(`GetModuleFileNameA`, `GetCurrentProcessId`, `RegisterEventSourceA`, `ReportEventA`, the C
formatter) is an explicit parameter, so theorems quantify over every outcome of it.

`std::string` is a `List Char` (one `Char` per byte); a buffer handed to a C function keeps
its size and is read back with `strlen`.  The C type `int` is an `Int`; the one place where
its bits matter, the `&` of the mask test, goes through the 32-bit two's-complement pattern.
-/

namespace syslog_win32_impl

/-! ## Platform types and constants -/

/-- Windows `WORD`. -/
abbrev WORD := Nat

/-- Windows `HANDLE`, an opaque value; `0` is the null handle. -/
abbrev HANDLE := Nat

/-- The null handle, `(HANDLE)NULL` and `nullptr` in the source. -/
def NULL : HANDLE := 0

/-- The string terminator `'\0'`. -/
def NUL : Char := Char.ofNat 0

/-- The backslash character (code 92), the Windows directory separator. -/
def BACKSLASH : Char := Char.ofNat 92

/-- `MAX_PATH` of `<windows.h>`. -/
def MAX_PATH : Nat := 260

/-- `EVENTLOG_SUCCESS` of `<winnt.h>`. -/
def EVENTLOG_SUCCESS : WORD := 0x0000
/-- `EVENTLOG_ERROR_TYPE` of `<winnt.h>`. -/
def EVENTLOG_ERROR_TYPE : WORD := 0x0001
/-- `EVENTLOG_WARNING_TYPE` of `<winnt.h>`. -/
def EVENTLOG_WARNING_TYPE : WORD := 0x0002
/-- `EVENTLOG_INFORMATION_TYPE` of `<winnt.h>`. -/
def EVENTLOG_INFORMATION_TYPE : WORD := 0x0004
/-- `EVENTLOG_AUDIT_SUCCESS` of `<winnt.h>`. -/
def EVENTLOG_AUDIT_SUCCESS : WORD := 0x0008

/-- Modelled from the spec: `syslog.h` is not among the sources; the eight POSIX levels
EMERG..DEBUG carry the numbers 0..7. -/
def LOG_EMERG : Int := 0
/-- Modelled from the spec: `syslog.h` is not among the sources (POSIX value). -/
def LOG_ALERT : Int := 1
/-- Modelled from the spec: `syslog.h` is not among the sources (POSIX value). -/
def LOG_CRIT : Int := 2
/-- Modelled from the spec: `syslog.h` is not among the sources (POSIX value). -/
def LOG_ERR : Int := 3
/-- Modelled from the spec: `syslog.h` is not among the sources (POSIX value). -/
def LOG_WARNING : Int := 4
/-- Modelled from the spec: `syslog.h` is not among the sources (POSIX value). -/
def LOG_NOTICE : Int := 5
/-- Modelled from the spec: `syslog.h` is not among the sources (POSIX value). -/
def LOG_INFO : Int := 6
/-- Modelled from the spec: `syslog.h` is not among the sources (POSIX value). -/
def LOG_DEBUG : Int := 7

/-- Modelled from the spec: `syslog.h` is not among the sources; the option bit "include
process id in every message" (POSIX value `0x01`). -/
def LOG_PID : Int := 0x01
/-- Modelled from the spec: `syslog.h` is not among the sources; the option bit "also echo
every message to standard error" (POSIX value `0x20`). -/
def LOG_PERROR : Int := 0x20

/-! ## 32-bit `int` arithmetic -/

/-- The 32-bit two's-complement bit pattern of an `int`. -/
def toBits32 (x : Int) : Nat := (x % 2 ^ 32).toNat

/-- The `int` whose 32-bit two's-complement bit pattern is `n % 2^32`. -/
def ofBits32 (n : Nat) : Int :=
  if n % 2 ^ 32 < 2 ^ 31 then ((n % 2 ^ 32 : Nat) : Int) else ((n % 2 ^ 32 : Nat) : Int) - 2 ^ 32

/-- The C operator `a & b` on `int`. -/
def bitand (a b : Int) : Int := ofBits32 (toBits32 a &&& toBits32 b)

/-- Modelled from the spec: `syslog.h` is not among the sources; `LOG_MASK(pri)` is the mask
bit of a level, `1 << pri`.  C++ defines the shift for `0 ≤ pri < 31`; the 32-bit pattern
is kept here for the other counts, which no statement below relies on. -/
def LOG_MASK (pri : Int) : Int := ofBits32 (1 <<< pri.toNat)

/-- Modelled from the spec: `syslog.h` is not among the sources; `LOG_UPTO(pri)` is the mask
of all levels up to and including `pri`, `(1 << (pri + 1)) - 1`. -/
def LOG_UPTO (pri : Int) : Int := ofBits32 (1 <<< (pri + 1).toNat) - 1

/-- The macro `FAILED(hr)` of `<winerror.h>`: `((HRESULT)(hr)) < 0`, with `HRESULT` a
32-bit signed integer. -/
def FAILED (hr : Nat) : Bool := decide (ofBits32 hr < 0)

/-! ## `std::string` and C buffers -/

/-- `strlen(s.c_str())`: the number of characters before the first terminator. -/
def strlen (s : List Char) : Nat := (s.takeWhile (fun c => c != NUL)).length

/-- The C string a `c_str()` pointer designates: the characters before the first
terminator. -/
def c_str (s : List Char) : List Char := s.takeWhile (fun c => c != NUL)

/-- `std::string::resize(n)`: cut to `n` characters, or pad with `'\0'` up to `n`. -/
def resize (s : List Char) (n : Nat) : List Char :=
  s.take n ++ List.replicate (n - s.length) NUL

/-- `std::string::find(c)`: the first position of `c`, `none` for `npos`. -/
def find (s : List Char) (c : Char) : Option Nat :=
  match s with
  | [] => none
  | x :: xs => if x = c then some 0 else (find xs c).map (fun i => i + 1)

/-- `std::string::rfind(c)`: the last position of `c`, `none` for `npos`. -/
def rfind (s : List Char) (c : Char) : Option Nat :=
  match s with
  | [] => none
  | x :: xs =>
    match rfind xs c with
    | some i => some (i + 1)
    | none => if x = c then some 0 else none

/-- `std::string::substr(pos)`: the characters from position `pos` on. -/
def substr (s : List Char) (pos : Nat) : List Char := s.drop pos

/-- `std::string::replace(pos, 1, 1, c)`: overwrite the character at `pos` with `c`. -/
def replace1 (s : List Char) (pos : Nat) (c : Char) : List Char := s.set pos c

/-- What a C99 `snprintf`-family call leaves behind when its full output is `e`: the
buffer `buf` of capacity `n` receives the first `n - 1` characters of `e` and a terminator
(nothing when `n = 0`), the rest of the buffer is untouched, and the call returns the length
of `e`.  Lengths are natural numbers; the limits of the `int` return type and of memory are
not part of this model. -/
def snwrite (buf : List Char) (n : Nat) (e : List Char) : Nat × List Char :=
  if n = 0 then (e.length, buf)
  else (e.length, e.take (n - 1) ++ NUL :: buf.drop ((e.take (n - 1)).length + 1))

/-- An argument captured in a `va_list`. -/
inductive Arg where
  | int (v : Int)
  | str (s : List Char)
  deriving DecidableEq, Repr

/-- The C `va_list`: the captured variadic arguments. -/
abbrev va_list := List Arg

/-- The platform capabilities the facade consumes, with the outcome of each. -/
structure Platform where
  /-- The path `GetModuleFileNameA` finds for the executable; `none` when the lookup fails. -/
  modulePath : Option (List Char)
  /-- The value of `GetCurrentProcessId()`. -/
  pid : Nat
  /-- The handle `RegisterEventSourceA(NULL, name)` returns; `NULL` on failure. -/
  RegisterEventSourceA : List Char → HANDLE
  /-- Whether `ReportEventA(log, type, 0, 1, NULL, 1, 0, &msg, NULL)` succeeds. -/
  ReportEventA : HANDLE → WORD → List Char → Bool
  /-- The full output of the C formatter for a format string and its arguments. -/
  vformat : List Char → va_list → List Char

/-- Platform `GetModuleFileNameA(module, buf, nSize)`: on failure returns `0` and leaves the
buffer alone; on success copies the path, terminated, and returns its length; a path that
does not fit is cut to `nSize - 1` characters, terminated, and `nSize` is returned. -/
def GetModuleFileNameA (path : Option (List Char)) (buf : List Char) (nSize : Nat) :
    Nat × List Char :=
  match path with
  | none => (0, buf)
  | some p =>
    if p.length < nSize then (p.length, p ++ NUL :: buf.drop (p.length + 1))
    else (nSize, p.take (nSize - 1) ++ NUL :: buf.drop nSize)

/-- C99 `vsnprintf(buf, n, format, ap)`, returning the count and the buffer. -/
def vsnprintf (P : Platform) (buf : List Char) (n : Nat) (format : List Char) (ap : va_list) :
    Nat × List Char :=
  snwrite buf n (P.vformat format ap)

/-- C99 `snprintf(buf, n, "%u", v)` for a 32-bit `unsigned` value `v`. -/
def snprintf_u (buf : List Char) (n : Nat) (v : Nat) : Nat × List Char :=
  snwrite buf n (Nat.toDigits 10 (v % 2 ^ 32))

/-! ## The priority-to-severity chain -/

/-- `ToSuccess::operator()`. -/
def ToSuccess (_priority : Int) : WORD := EVENTLOG_SUCCESS

/-- `Prio2Type<src, map, next>::operator()`. -/
def Prio2Type (src : Int) (map : WORD) (next : Int → WORD) (priority : Int) : WORD :=
  if priority = src then map else next priority

/-- The chain instantiated in `print` to compute `evtype`. -/
def evtype : Int → WORD :=
  Prio2Type LOG_EMERG EVENTLOG_ERROR_TYPE <|
  Prio2Type LOG_ALERT EVENTLOG_ERROR_TYPE <|
  Prio2Type LOG_CRIT EVENTLOG_ERROR_TYPE <|
  Prio2Type LOG_ERR EVENTLOG_ERROR_TYPE <|
  Prio2Type LOG_WARNING EVENTLOG_WARNING_TYPE <|
  Prio2Type LOG_NOTICE EVENTLOG_INFORMATION_TYPE <|
  Prio2Type LOG_INFO EVENTLOG_INFORMATION_TYPE <|
  Prio2Type LOG_DEBUG EVENTLOG_AUDIT_SUCCESS ToSuccess

/-! ## Identity derivation -/

/-- The loop `while ( (pos = out.find( c )) != out.npos ) out.replace( pos, 1, 1, '_' );`
of `ident`, for a character `c` other than the underscore. -/
def replaceLoop (c : Char) (hc : c ≠ '_') (out : List Char) : List Char :=
  match h : find out c with
  | none => out
  | some pos => replaceLoop c hc (replace1 out pos '_')
termination_by out.count c
decreasing_by
  have key : ∀ (s : List Char) (i : Nat), find s c = some i →
      (replace1 s i '_').count c < s.count c := by
    intro s
    induction s with
    | nil => intro i hi; simp [find] at hi
    | cons x xs ih =>
      intro i hi
      by_cases hx : x = c
      · subst hx
        have h0 : i = 0 := by simpa [find] using hi.symm
        subst h0
        have h1 : ('_' == x) = false := by
          simpa using fun h2 => hc h2.symm
        simp [replace1, List.count_cons, h1]
      · simp only [find, if_neg hx, Option.map_eq_some'] at hi
        obtain ⟨j, hj, rfl⟩ := hi
        have hlt := ih j hj
        simp only [replace1] at hlt
        simpa [replace1, List.count_cons, hx] using hlt
  exact key out pos h

/-- The fixed placeholder identity of `ident`. -/
def undefined_module : List Char := "__undefined_module__".toList

/-- Method `syslog::ident( const char* sz )`.  `none` is the null pointer, `some s` a
pointer to the C string with characters `s`. -/
def ident (P : Platform) (sz : Option (List Char)) : List Char :=
  let out : List Char :=
    match sz with
    | none =>
      let out := resize [] MAX_PATH
      let r := GetModuleFileNameA P.modulePath out out.length
      let out := if FAILED r.1 then undefined_module else r.2
      let out := resize out (strlen out)
      let out :=
        match rfind out BACKSLASH with
        | some pos => substr out (pos + 1)
        | none => out
      let out :=
        match rfind out '/' with
        | some pos => substr out (pos + 1)
        | none => out
      out
    | some s => s
  let out := replaceLoop '/' (by decide) out
  let out := replaceLoop BACKSLASH (by decide) out
  out

/-! ## The facade -/

/-- The data members of class `syslog` (the mutex carries no data). -/
structure syslog where
  /-- The event-source handle, `NULL` while closed. -/
  _log : HANDLE
  /-- The allowed priorities mask. -/
  _msk : Int
  /-- The option bits given to the last `openl`. -/
  _opt : Int
  deriving DecidableEq, Repr

/-- A platform call or stream write made by the facade. -/
inductive Event where
  /-- Call `DeregisterEventSource( log )`. -/
  | DeregisterEventSource (log : HANDLE)
  /-- Call `RegisterEventSourceA( NULL, name )` and its result. -/
  | RegisterEventSourceA (name : List Char) (result : HANDLE)
  /-- Call `ReportEventA( log, type, 0, 1, NULL, 1, 0, strings, NULL )` and its result. -/
  | ReportEventA (log : HANDLE) (type : WORD) (strings : List (List Char)) (ok : Bool)
  /-- Text written to standard error. -/
  | stderr (text : List Char)
  /-- Text written to standard output. -/
  | stdout (text : List Char)
  deriving DecidableEq, Repr

/-- Whether an event puts a message on a sink: a record accepted by the event log, or text
on standard error or standard output. -/
def Event.isOutput : Event → Bool
  | Event.ReportEventA _ _ _ ok => ok
  | Event.stderr _ => true
  | Event.stdout _ => true
  | _ => false

/-- Constructor `syslog::syslog()`. -/
def syslog.ctor : syslog := { _log := NULL, _msk := -1, _opt := 0 }

/-- Method `syslog::close()`. -/
def syslog.close (s : syslog) : syslog × List Event :=
  let tr := if s._log ≠ NULL then [Event.DeregisterEventSource s._log] else []
  ({ s with _log := NULL }, tr)

/-- Method `syslog::maskl( int mask )`: the returned value and the new state. -/
def syslog.maskl (s : syslog) (mask : Int) : Int × syslog :=
  let omsk := s._msk
  (omsk, { s with _msk := mask })

/-- Method `syslog::openl( const char* id, int option, int facility )`. -/
def syslog.openl (s : syslog) (P : Platform) (id : Option (List Char)) (option : Int)
    (_facility : Int) : syslog × List Event :=
  let _idn := ident P id
  let c := s.close
  let h := P.RegisterEventSourceA (c_str _idn)
  ({ c.1 with _log := h, _opt := option }, c.2 ++ [Event.RegisterEventSourceA (c_str _idn) h])

/-- First half of method `syslog::print( const char* format, va_list ap ) const`, the
formatter: the value of `msg` after `msg.resize( strlen( msg.c_str() ) )`. -/
def syslog.print_msg (P : Platform) (format : List Char) (ap : va_list) : List Char :=
  let msg := List.replicate 0x100 ' '
  let len := msg.length
  let r := vsnprintf P msg len format ap
  let cch := r.1
  let msg := r.2
  let msg :=
    if cch ≥ len then
      let msg := resize msg (cch + 1)
      (vsnprintf P msg msg.length format ap).2
    else msg
  resize msg (strlen msg)

/-- Method `syslog::print( const char* format, va_list ap ) const`, the formatter: `msg` as
computed by `print_msg`, then the process-id part. -/
def syslog.print_str (s : syslog) (P : Platform) (format : List Char) (ap : va_list) :
    List Char :=
  let msg := syslog.print_msg P format ap
  if bitand s._opt LOG_PID ≠ 0 then
    let pid := List.replicate 0x20 ' '
    let pid := (snprintf_u pid pid.length P.pid).2
    let pid := resize pid (strlen pid)
    pid ++ ": ".toList ++ msg
  else msg

/-- Method `syslog::print( int priority, const char* format, va_list ap )`. -/
def syslog.print (s : syslog) (P : Platform) (priority : Int) (format : List Char)
    (ap : va_list) : syslog × List Event :=
  if bitand s._msk (LOG_MASK priority) ≠ 0 then
    let o := if s._log = NULL then s.openl P none LOG_PID 0 else (s, [])
    let s1 := o.1
    let msg := s1.print_str P format ap
    let t2 := if bitand s1._opt LOG_PERROR ≠ 0 then [Event.stderr (c_str msg ++ ['\n'])] else []
    let t3 :=
      if s1._log ≠ NULL then
        let msgptr := c_str msg
        let ok := P.ReportEventA s1._log (evtype priority) msgptr
        Event.ReportEventA s1._log (evtype priority) [msgptr] ok ::
          (if ok then [] else [Event.stdout (c_str msg ++ ['\n'])])
      else []
    (s1, o.2 ++ t2 ++ t3)
  else (s, [])

end syslog_win32_impl

/-! ## The C entry points, over the process-wide instance `log` -/

/-- Function `closelog()`. -/
def closelog (log : syslog_win32_impl.syslog) :
    syslog_win32_impl.syslog × List syslog_win32_impl.Event :=
  log.close

/-- Function `openlog( ident, option, facility )`. -/
def openlog (log : syslog_win32_impl.syslog) (P : syslog_win32_impl.Platform)
    (ident : Option (List Char)) (option : Int) (facility : Int) :
    syslog_win32_impl.syslog × List syslog_win32_impl.Event :=
  log.openl P ident option facility

/-- Function `setlogmask( mask )`: the returned value and the new state. -/
def setlogmask (log : syslog_win32_impl.syslog) (mask : Int) : Int × syslog_win32_impl.syslog :=
  log.maskl mask

/-- Function `vsyslog( priority, format, ap )`. -/
def vsyslog (log : syslog_win32_impl.syslog) (P : syslog_win32_impl.Platform) (priority : Int)
    (format : List Char) (ap : syslog_win32_impl.va_list) :
    syslog_win32_impl.syslog × List syslog_win32_impl.Event :=
  log.print P priority format ap

/-- Function `syslog( priority, format, ... )`; `ap` is what `va_start` captures. -/
def syslog (log : syslog_win32_impl.syslog) (P : syslog_win32_impl.Platform) (priority : Int)
    (format : List Char) (ap : syslog_win32_impl.va_list) :
    syslog_win32_impl.syslog × List syslog_win32_impl.Event :=
  log.print P priority format ap

namespace syslog_win32_impl

/-! ## Observations and example hosts -/

/-- No event of a trace puts a message on a sink: no accepted record, nothing on standard
error, nothing on standard output. -/
def noOutput (tr : List Event) : Bool := tr.all (fun e => !e.isOutput)

/-- The decimal text of an `int`, as `%d` prints it. -/
def intText (v : Int) : List Char :=
  if v < 0 then '-' :: Nat.toDigits 10 v.natAbs else Nat.toDigits 10 v.natAbs

/-- A reference formatter for the example hosts: the conversions `%d`, `%s` and `%%` of the
C formatter, every other character copied.  The flag tells that a `%` was just read. -/
def vformatAux : Bool → List Char → va_list → List Char
  | _, [], _ => []
  | false, c :: rest, ap =>
    if c = '%' then vformatAux true rest ap else c :: vformatAux false rest ap
  | true, c :: rest, ap =>
    if c = 'd' then
      match ap with
      | Arg.int v :: ap1 => intText v ++ vformatAux false rest ap1
      | _ => vformatAux false rest ap
    else if c = 's' then
      match ap with
      | Arg.str s :: ap1 => s ++ vformatAux false rest ap1
      | _ => vformatAux false rest ap
    else if c = '%' then '%' :: vformatAux false rest ap
    else '%' :: c :: vformatAux false rest ap

/-- The reference formatter of the example hosts. -/
def vformatRef (format : List Char) (ap : va_list) : List Char := vformatAux false format ap

/-- An executable path that mixes both directory separators, `C:\Tools/bin\logger.exe`. -/
def examplePath : List Char :=
  "C:".toList ++ BACKSLASH :: "Tools/bin".toList ++ BACKSLASH :: "logger.exe".toList

/-- A host on which every platform call succeeds: process id 4242, event-source handle 7. -/
def exampleHost : Platform where
  modulePath := some examplePath
  pid := 4242
  RegisterEventSourceA := fun _ => 7
  ReportEventA := fun _ _ _ => true
  vformat := vformatRef

/-- A host on which the executable-path lookup and the event-source registration fail. -/
def failingHost : Platform where
  modulePath := none
  pid := 4242
  RegisterEventSourceA := fun _ => NULL
  ReportEventA := fun _ _ _ => false
  vformat := vformatRef

/-- A host whose formatter always yields 257 letters, more than the 256-byte scratch buffer
of the formatter holds. -/
def longHost : Platform where
  modulePath := some examplePath
  pid := 4242
  RegisterEventSourceA := fun _ => 7
  ReportEventA := fun _ _ _ => true
  vformat := fun _ _ => List.replicate 257 'x'

end syslog_win32_impl

section Scenario

open syslog_win32_impl (Platform Event Arg LOG_PID LOG_UPTO LOG_WARNING LOG_INFO LOG_ERR)

/-- The process-wide instance after `openlog("svc", LOG_PID, 0);` and
`setlogmask(LOG_UPTO(LOG_WARNING));` on a freshly constructed facade. -/
def scenarioLog (P : Platform) : syslog_win32_impl.syslog :=
  (setlogmask (openlog syslog_win32_impl.syslog.ctor P (some "svc".toList) LOG_PID 0).1
    (LOG_UPTO LOG_WARNING)).2

/-- The call `syslog(LOG_INFO, "started %d", 7)` that follows. -/
def scenarioInfo (P : Platform) : syslog_win32_impl.syslog × List Event :=
  syslog (scenarioLog P) P LOG_INFO "started %d".toList [Arg.int 7]

/-- The call `syslog(LOG_ERR, "failed %d", 7)` after that. -/
def scenarioErr (P : Platform) : syslog_win32_impl.syslog × List Event :=
  syslog (scenarioInfo P).1 P LOG_ERR "failed %d".toList [Arg.int 7]

end Scenario

namespace syslog_win32_impl

/-! ## Traces: streams, sequencing, operation sequences -/

/-- The texts a trace writes to standard output, in order. -/
def stdoutWrites : List Event → List (List Char)
  | [] => []
  | Event.stdout text :: tr => text :: stdoutWrites tr
  | _ :: tr => stdoutWrites tr

/-- The texts a trace writes to standard error, in order. -/
def stderrWrites : List Event → List (List Char)
  | [] => []
  | Event.stderr text :: tr => text :: stderrWrites tr
  | _ :: tr => stderrWrites tr

/-- One operation followed by another on the resulting state: the final state and the
platform calls of both, in order. -/
def andThen (r : syslog × List Event) (next : syslog → syslog × List Event) :
    syslog × List Event :=
  ((next r.1).1, r.2 ++ (next r.1).2)

/-- A call of one of the four public methods, with the host it runs on (the outcomes of the
platform calls it makes). -/
inductive Op where
  | close
  | maskl (mask : Int)
  | openl (P : Platform) (id : Option (List Char)) (option : Int) (facility : Int)
  | print (P : Platform) (priority : Int) (format : List Char) (ap : va_list)

/-- The effect of one call on the facade. -/
def Op.step (s : syslog) : Op → syslog × List Event
  | Op.close => s.close
  | Op.maskl mask => ((s.maskl mask).2, [])
  | Op.openl P id option facility => s.openl P id option facility
  | Op.print P priority format ap => s.print P priority format ap

/-- The effect of a sequence of calls: the final state and all platform calls, in order. -/
def run (s : syslog) : List Op → syslog × List Event
  | [] => (s, [])
  | op :: ops => andThen (op.step s) (fun s1 => run s1 ops)

/-- The event-source registry as the platform sees it, replayed over a trace from the set
of live handles `live` (none or one).  A successful registration makes its handle live, a
deregistration ends the life of the handle it names.  The replay fails (`none`) when a
registration is attempted while a handle is live, or when a handle is deregistered that is
not live (never registered, or deregistered already). -/
def registry (live : Option HANDLE) : List Event → Option (Option HANDLE)
  | [] => some live
  | Event.RegisterEventSourceA _ result :: tr =>
    match live with
    | some _ => none
    | none => registry (if result = NULL then none else some result) tr
  | Event.DeregisterEventSource log :: tr =>
    if live = some log then registry none tr else none
  | _ :: tr => registry live tr

/-- The handle a facade state holds, as a set of at most one live handle. -/
def syslog.held (s : syslog) : Option HANDLE := if s._log = NULL then none else some s._log

/-! ## The mutex -/

/-- The data members the mutex `_mtx` is meant to guard. -/
inductive Member where
  | _log
  | _msk
  | _opt
  deriving DecidableEq, Repr

/-- What a method does with the mutex and the data members, step by step. -/
inductive Access where
  /-- A `std::unique_lock<mutex_type>` constructed on `_mtx` acquires the recursive mutex. -/
  | lock
  /-- The destructor of such a lock at the end of the method releases it. -/
  | unlock
  /-- A read of a data member. -/
  | read (m : Member)
  /-- A write of a data member. -/
  | write (m : Member)
  deriving DecidableEq, Repr

/-- The accesses of `syslog::close()`.  Its `std::unique_lock<mutex_type>  _mtc;` is
default-constructed: it is given no mutex, so it acquires and releases nothing. -/
def syslog.close_accesses (s : syslog) : List Access :=
  [Access.read Member._log] ++
    (if s._log ≠ NULL then [Access.read Member._log] else []) ++
    [Access.write Member._log]

/-- The accesses of `syslog::maskl( int )`, under `_lck( _mtx )`. -/
def syslog.maskl_accesses : List Access :=
  [Access.lock, Access.read Member._msk, Access.write Member._msk, Access.unlock]

/-- The accesses of `syslog::openl(...)`: `ident` runs first and touches no member, then
`_lck( _mtx )`, the call of `close()`, and the two assignments. -/
def syslog.openl_accesses (s : syslog) : List Access :=
  [Access.lock] ++ s.close_accesses ++
    [Access.write Member._log, Access.write Member._opt, Access.unlock]

/-- The accesses of `syslog::print( int, const char*, va_list )`, under `_lck( _mtx )`: the
mask test, the handle test and the lazy `openl`, the formatter (which reads `_opt`), the
standard-error test, the handle test and the handle passed to `ReportEventA`. -/
def syslog.print_accesses (s : syslog) (P : Platform) (priority : Int) : List Access :=
  [Access.lock, Access.read Member._msk] ++
    (if bitand s._msk (LOG_MASK priority) ≠ 0 then
      [Access.read Member._log] ++
        (if s._log = NULL then s.openl_accesses else []) ++
        [Access.read Member._opt, Access.read Member._opt, Access.read Member._log] ++
        (if (if s._log = NULL then (s.openl P none LOG_PID 0).1 else s)._log ≠ NULL
          then [Access.read Member._log] else [])
     else []) ++
    [Access.unlock]

/-- Whether every read and write of a data member in a sequence happens while the recursive
mutex is held; `depth` counts how often it is held on entry. -/
def guarded (depth : Nat) : List Access → Bool
  | [] => true
  | Access.lock :: as => guarded (depth + 1) as
  | Access.unlock :: as => guarded (depth - 1) as
  | Access.read _ :: as => decide (0 < depth) && guarded depth as
  | Access.write _ :: as => decide (0 < depth) && guarded depth as

/-! ## Example states -/

/-- An open facade: handle 7, every level permitted, echo to standard error requested. -/
def openLog : syslog := { _log := 7, _msk := -1, _opt := LOG_PERROR }

/-- A closed facade whose options still request the echo to standard error, as
`openlog( "svc", LOG_PERROR, 0 )` leaves it when the registration fails. -/
def unregisteredLog : syslog := { _log := NULL, _msk := -1, _opt := LOG_PERROR }

/-- A host on which registration succeeds (handle 7) and every submission fails. -/
def rejectingHost : Platform where
  modulePath := some examplePath
  pid := 4242
  RegisterEventSourceA := fun _ => 7
  ReportEventA := fun _ _ _ => false
  vformat := vformatRef

/-! ## Helper lemmas: bits of an `int` -/

theorem ofBits32_eq_zero_iff (n : Nat) (h : n < 2 ^ 32) : ofBits32 n = 0 ↔ n = 0 := by
  unfold ofBits32
  rw [Nat.mod_eq_of_lt h]
  split_ifs <;> omega

theorem testBit_toBits32 (m : Int) (p : Nat) (hp : p < 32) :
    (toBits32 m).testBit p = m.testBit p := by
  unfold toBits32
  cases m with
  | ofNat a =>
    have h : ((Int.ofNat a) % 2 ^ 32).toNat = a % 2 ^ 32 := by
      have : (Int.ofNat a) % 2 ^ 32 = ((a % 2 ^ 32 : Nat) : Int) := by
        simp [Int.ofNat_eq_coe]
      rw [this]; exact Int.toNat_natCast _
    rw [h, Nat.testBit_mod_two_pow]
    simp [hp, Int.testBit]
  | negSucc a =>
    have h : ((Int.negSucc a) % 2 ^ 32).toNat = 2 ^ 32 - (a % 2 ^ 32 + 1) := by
      have h3 : a % 2 ^ 32 < 2 ^ 32 := Nat.mod_lt _ (by norm_num)
      have : (Int.negSucc a) % 2 ^ 32 = ((2 ^ 32 - (a % 2 ^ 32 + 1) : Nat) : Int) := by
        rw [Int.emod_negSucc]
        simp only [Int.subNatNat_eq_coe]
        have : ((2:Int) ^ 32).natAbs = 2 ^ 32 := by norm_num
        rw [this]
        omega
      rw [this]; exact Int.toNat_natCast _
    rw [h, Nat.testBit_two_pow_sub_succ (Nat.mod_lt _ (by norm_num)), Nat.testBit_mod_two_pow]
    simp [hp, Int.testBit]

/-- The mask test of the source, `(m & (1 << p)) != 0`, reads bit `p` of `m`. -/
theorem bitand_two_pow_ne_zero_iff (m : Int) (p : Nat) (hp : p < 31) :
    bitand m (ofBits32 (1 <<< p)) ≠ 0 ↔ m.testBit p = true := by
  have hlt : (2:Nat) ^ p < 2147483648 :=
    calc (2:Nat) ^ p < 2 ^ 31 := Nat.pow_lt_pow_right (by norm_num) hp
      _ = 2147483648 := by norm_num
  have h1 : ofBits32 (1 <<< p) = ((2 ^ p : Nat) : Int) := by
    unfold ofBits32
    rw [Nat.one_shiftLeft, Nat.mod_eq_of_lt (by omega)]
    rw [if_pos (by omega)]
  have h2 : toBits32 ((2 ^ p : Nat) : Int) = 2 ^ p := by
    unfold toBits32
    have : (((2 ^ p : Nat) : Int) % 2 ^ 32) = ((2 ^ p : Nat) : Int) := by
      apply Int.emod_eq_of_lt
      · exact Int.natCast_nonneg _
      · have : (((2 ^ p : Nat) : Int)) < ((2147483648 : Nat) : Int) := Int.ofNat_lt.mpr hlt
        omega
    rw [this]; exact Int.toNat_natCast _
  unfold bitand
  rw [h1, h2, Nat.and_two_pow, ← testBit_toBits32 m p (by omega)]
  have h3 : ((toBits32 m).testBit p).toNat * 2 ^ p < 2 ^ 32 := by
    cases (toBits32 m).testBit p
    · simp
    · simp; omega
  rw [Ne, ofBits32_eq_zero_iff _ h3]
  cases (toBits32 m).testBit p <;> simp

/-! ## Helper lemmas: buffers and the formatter -/

theorem takeWhile_append_NUL (e rest : List Char) (h : NUL ∉ e) :
    (e ++ NUL :: rest).takeWhile (fun c => c != NUL) = e := by
  induction e with
  | nil => simp [List.takeWhile]
  | cons x xs ih =>
    have hx : x ≠ NUL := fun hx => h (by simp [hx])
    have hxs : NUL ∉ xs := fun hxs => h (by simp [hxs])
    have hx1 : (x != NUL) = true := by simpa using hx
    simp [List.takeWhile, hx1, ih hxs]

theorem takeWhile_of_noNUL (e : List Char) (h : NUL ∉ e) :
    e.takeWhile (fun c => c != NUL) = e := by
  induction e with
  | nil => simp
  | cons x xs ih =>
    have hx : x ≠ NUL := fun hx => h (by simp [hx])
    have hxs : NUL ∉ xs := fun hxs => h (by simp [hxs])
    have hx1 : (x != NUL) = true := by simpa using hx
    simp [List.takeWhile, hx1, ih hxs]

theorem c_str_of_noNUL (e : List Char) (h : NUL ∉ e) : c_str e = e :=
  takeWhile_of_noNUL e h

/-- A C99 write that fits, read back with `resize( strlen( c_str() ) )`, is the text
written. -/
theorem resize_strlen_snwrite (buf e : List Char) (n : Nat) (hn : e.length < n)
    (h : NUL ∉ e) :
    resize (snwrite buf n e).2 (strlen (snwrite buf n e).2) = e := by
  have hn0 : n ≠ 0 := by omega
  have htake : e.take (n - 1) = e := List.take_of_length_le (by omega)
  simp only [snwrite, if_neg hn0, htake, strlen, takeWhile_append_NUL e _ h, resize]
  rw [List.take_left' rfl]
  have : e.length - (e ++ NUL :: List.drop (e.length + 1) buf).length = 0 := by
    simp only [List.length_append, List.length_cons]; omega
  rw [this]; simp

theorem print_msg_eq (P : Platform) (format : List Char) (ap : va_list)
    (h : NUL ∉ P.vformat format ap) :
    syslog.print_msg P format ap = P.vformat format ap := by
  unfold syslog.print_msg vsnprintf
  have hl : (List.replicate 0x100 ' ').length = 256 := List.length_replicate _ _
  generalize List.replicate 0x100 ' ' = buf at hl ⊢
  generalize P.vformat format ap = e at h ⊢
  have hfst : ∀ (b : List Char) (k : Nat), (snwrite b k e).1 = e.length := by
    intro b k; unfold snwrite; split_ifs <;> rfl
  simp only [hfst, hl]
  by_cases hlen : e.length ≥ 256
  · simp only [hlen, if_true]
    apply resize_strlen_snwrite _ _ _ _ h
    simp only [resize, List.length_append, List.length_take, List.length_replicate]
    have hlen2 : (snwrite buf 256 e).2.length = 256 := by
      simp only [snwrite, List.length_append, List.length_take, List.length_cons,
        List.length_drop]
      simp
      omega
    omega
  · simp only [hlen, if_false]
    exact resize_strlen_snwrite _ _ _ (by omega) h

theorem ite_ne_NUL (c : Prop) [Decidable c] (a b : Char) (ha : a ≠ NUL) (hb : b ≠ NUL) :
    (if c then a else b) ≠ NUL := by
  split <;> assumption

theorem digitChar_ne_NUL (n : Nat) : Nat.digitChar n ≠ NUL := by
  unfold Nat.digitChar
  repeat (first | exact (by decide) | apply ite_ne_NUL _ _ _ (by decide))

theorem toDigitsCore_noNUL (f : Nat) : ∀ (n : Nat) (acc : List Char), NUL ∉ acc →
    NUL ∉ Nat.toDigitsCore 10 f n acc := by
  induction f with
  | zero => intro n acc h; simpa [Nat.toDigitsCore] using h
  | succ f ih =>
    intro n acc h
    simp only [Nat.toDigitsCore]
    have hacc : NUL ∉ (n % 10).digitChar :: acc := by
      intro hm
      rcases List.mem_cons.mp hm with h1 | h1
      · exact digitChar_ne_NUL _ h1.symm
      · exact h h1
    split_ifs
    · exact hacc
    · exact ih _ _ hacc

theorem toDigits_noNUL (n : Nat) : NUL ∉ Nat.toDigits 10 n := by
  unfold Nat.toDigits
  exact toDigitsCore_noNUL _ _ _ (by simp)

theorem toDigits_length_le (n : Nat) (h : n < 2 ^ 32) : (Nat.toDigits 10 n).length ≤ 10 := by
  unfold Nat.toDigits
  apply Nat.toDigitsCore_length 10 (by norm_num) _ n 10 _ (by norm_num)
  omega

/-- The process-id text the formatter builds in its 32-byte buffer. -/
theorem pid_text_eq (pid : Nat) (h : pid < 2 ^ 32) :
    resize (snprintf_u (List.replicate 0x20 ' ') (List.replicate 0x20 ' ').length pid).2
      (strlen (snprintf_u (List.replicate 0x20 ' ') (List.replicate 0x20 ' ').length pid).2)
      = Nat.toDigits 10 pid := by
  unfold snprintf_u
  rw [Nat.mod_eq_of_lt h, List.length_replicate]
  apply resize_strlen_snwrite _ _ _ _ (toDigits_noNUL pid)
  have := toDigits_length_le pid h
  omega

theorem print_str_eq (s : syslog) (P : Platform) (format : List Char) (ap : va_list)
    (hpid : P.pid < 2 ^ 32) (h : NUL ∉ P.vformat format ap) :
    s.print_str P format ap =
      if bitand s._opt LOG_PID ≠ 0 then
        Nat.toDigits 10 P.pid ++ ": ".toList ++ P.vformat format ap
      else P.vformat format ap := by
  unfold syslog.print_str
  simp only [print_msg_eq P format ap h, pid_text_eq P.pid hpid]

/-! ## Helper lemmas: identity derivation -/

theorem map_of_find_none (c : Char) : ∀ (s : List Char), find s c = none →
    s.map (fun x => if x = c then '_' else x) = s ∧ c ∉ s := by
  intro s
  induction s with
  | nil => intro _; simp
  | cons x xs ih =>
    intro h
    by_cases hx : x = c
    · simp [find, hx] at h
    · simp only [find, if_neg hx, Option.map_eq_none'] at h
      obtain ⟨h1, h2⟩ := ih h
      refine ⟨by simp [hx, h1], ?_⟩
      intro hm
      rcases List.mem_cons.mp hm with h3 | h3
      · exact hx h3.symm
      · exact h2 h3

theorem map_of_find_some (c : Char) (hc : c ≠ '_') : ∀ (s : List Char) (pos : Nat),
    find s c = some pos →
    (replace1 s pos '_').map (fun x => if x = c then '_' else x)
      = s.map (fun x => if x = c then '_' else x) := by
  intro s
  induction s with
  | nil => intro pos h; simp [find] at h
  | cons x xs ih =>
    intro pos h
    by_cases hx : x = c
    · have h0 : pos = 0 := by simpa [find, hx] using h.symm
      subst h0
      have hc1 : ¬ ('_' = c) := fun h2 => hc h2.symm
      simp [replace1, hx, hc1]
    · simp only [find, if_neg hx, Option.map_eq_some'] at h
      obtain ⟨j, hj, rfl⟩ := h
      have hm := ih j hj
      simp only [replace1] at hm
      simp [replace1, hm]

/-- The replacement loop of `ident` rewrites every `c` to an underscore and nothing else. -/
theorem replaceLoop_eq_map (c : Char) (hc : c ≠ '_') (out : List Char) :
    replaceLoop c hc out = out.map (fun x => if x = c then '_' else x) := by
  induction out using replaceLoop.induct c hc with
  | case1 out h =>
    rw [replaceLoop]
    split
    · exact (map_of_find_none c out h).1.symm
    · rename_i pos hpos
      rw [h] at hpos
      cases hpos
  | case2 out pos h ih =>
    rw [replaceLoop]
    split
    · rename_i hnone
      rw [h] at hnone
      cases hnone
    · rename_i pos2 hpos
      have hp : pos2 = pos := by
        rw [h] at hpos
        exact (Option.some.inj hpos).symm
      subst hp
      rw [ih, map_of_find_some c hc out pos2 h]

theorem replaceLoop_of_not_mem (c : Char) (hc : c ≠ '_') (out : List Char) (h : c ∉ out) :
    replaceLoop c hc out = out := by
  rw [replaceLoop_eq_map]
  conv_rhs => rw [← List.map_id out]
  apply List.map_congr_left
  intro x hx
  have : x ≠ c := fun hxc => h (hxc ▸ hx)
  simp [this]

theorem rfind_none (c : Char) : ∀ (s : List Char), rfind s c = none → c ∉ s := by
  intro s
  induction s with
  | nil => intro _; simp
  | cons x xs ih =>
    intro h
    simp only [rfind] at h
    split at h
    · cases h
    · rename_i hn
      split_ifs at h with hx
      intro hm
      rcases List.mem_cons.mp hm with h3 | h3
      · exact hx h3.symm
      · exact ih hn h3

theorem rfind_some (c : Char) : ∀ (s : List Char) (i : Nat), rfind s c = some i →
    c ∉ s.drop (i + 1) ∧ ∃ pre, s = pre ++ c :: s.drop (i + 1) := by
  intro s
  induction s with
  | nil => intro i h; simp [rfind] at h
  | cons x xs ih =>
    intro i h
    simp only [rfind] at h
    split at h
    · rename_i j hj
      have hi : i = j + 1 := (Option.some.inj h).symm
      subst hi
      obtain ⟨h1, pre, h2⟩ := ih j hj
      refine ⟨by simpa using h1, x :: pre, ?_⟩
      simp only [List.drop_succ_cons, List.cons_append]
      rw [← h2]
    · rename_i hn
      split_ifs at h with hx
      have hi : i = 0 := (Option.some.inj h).symm
      subst hi
      refine ⟨by simpa using rfind_none c xs hn, [], ?_⟩
      simp [hx]

theorem ident_some (P : Platform) (s : List Char) :
    ident P (some s) = s.map (fun x => if x = '/' ∨ x = BACKSLASH then '_' else x) := by
  simp only [ident, replaceLoop_eq_map, List.map_map]
  apply List.map_congr_left
  intro x _
  have hb1 : BACKSLASH ≠ '/' := by decide
  have hb2 : BACKSLASH ≠ '_' := by decide
  have hb3 : ¬ ('_' = BACKSLASH) := by decide
  by_cases h1 : x = '/'
  · subst h1; simp
  · by_cases h2 : x = BACKSLASH
    · subst h2; simp [hb1]
    · simp [h1, h2, hb3]

theorem FAILED_of_lt (n : Nat) (h : n < 2 ^ 31) : FAILED n = false := by
  unfold FAILED ofBits32
  rw [Nat.mod_eq_of_lt (by omega), if_pos h]
  simp

theorem resize_nil (n : Nat) : resize [] n = List.replicate n NUL := by
  simp [resize]

/-- After a failed lookup the buffer of `ident` still holds `MAX_PATH` terminators, the
placeholder is not taken, and the identity comes out empty. -/
theorem ident_none_of_lookup_failure (P : Platform) (h : P.modulePath = none) :
    ident P none = [] := by
  have h1 : FAILED 0 = false := FAILED_of_lt 0 (by norm_num)
  have h2 : strlen (List.replicate MAX_PATH NUL) = 0 := by
    have hs : ∀ n, strlen (List.replicate (n + 1) NUL) = 0 := by
      intro n; simp [strlen, List.replicate_succ, List.takeWhile]
    exact hs 259
  have h3 : resize (List.replicate MAX_PATH NUL) 0 = [] := by
    simp [resize]
  simp only [ident, h, GetModuleFileNameA, resize_nil, h1, Bool.false_eq_true, if_false, h2, h3,
    rfind, substr]
  rw [replaceLoop_of_not_mem _ _ _ (List.not_mem_nil _),
    replaceLoop_of_not_mem _ _ _ (List.not_mem_nil _)]

/-- After a successful lookup of a path that fits the buffer, `ident` strips what precedes
the last backslash, then what precedes the last slash of the rest. -/
theorem ident_none_of_lookup_success (P : Platform) (path : List Char)
    (h : P.modulePath = some path) (hlen : path.length < MAX_PATH) (hnul : NUL ∉ path) :
    ident P none =
      (match rfind (match rfind path BACKSLASH with
                    | some pos => substr path (pos + 1)
                    | none => path) '/' with
       | some pos => substr (match rfind path BACKSLASH with
                    | some pos => substr path (pos + 1)
                    | none => path) (pos + 1)
       | none => (match rfind path BACKSLASH with
                    | some pos => substr path (pos + 1)
                    | none => path)) := by
  have hM : MAX_PATH = 260 := rfl
  have h1 : FAILED path.length = false := FAILED_of_lt _ (by rw [hM] at hlen; omega)
  have hlen2 : (List.replicate MAX_PATH NUL).length = MAX_PATH := List.length_replicate _ _
  have h2 : resize (path ++ NUL :: List.drop (path.length + 1) (List.replicate MAX_PATH NUL))
      (strlen (path ++ NUL :: List.drop (path.length + 1) (List.replicate MAX_PATH NUL)))
      = path := by
    simp only [strlen, takeWhile_append_NUL path _ hnul, resize]
    rw [List.take_left' rfl]
    have : path.length -
        (path ++ NUL :: List.drop (path.length + 1) (List.replicate MAX_PATH NUL)).length = 0 := by
      simp only [List.length_append, List.length_cons]; omega
    rw [this]; simp
  simp only [ident, h, GetModuleFileNameA, resize_nil, hlen2, if_pos hlen, h1,
    Bool.false_eq_true, if_false, h2]
  generalize hA : (match rfind path BACKSLASH with
                    | some pos => substr path (pos + 1)
                    | none => path) = A
  have hA1 : BACKSLASH ∉ A := by
    rw [← hA]
    split
    · rename_i pos hpos
      exact (rfind_some _ _ _ hpos).1
    · rename_i hn
      exact rfind_none _ _ hn
  generalize hB : (match rfind A '/' with
       | some pos => substr A (pos + 1)
       | none => A) = B
  have hB1 : '/' ∉ B := by
    rw [← hB]
    split
    · rename_i pos hpos
      exact (rfind_some _ _ _ hpos).1
    · rename_i hn
      exact rfind_none _ _ hn
  have hB2 : BACKSLASH ∉ B := by
    rw [← hB]
    split
    · intro hm; exact hA1 (List.mem_of_mem_drop hm)
    · exact hA1
  rw [replaceLoop_of_not_mem _ _ _ hB1, replaceLoop_of_not_mem _ _ _ hB2]

/-! ## Helper lemmas: the three paths through `print` -/

theorem print_filtered (s : syslog) (P : Platform) (p : Int) (format : List Char)
    (ap : va_list) (h : bitand s._msk (LOG_MASK p) = 0) :
    s.print P p format ap = (s, []) := by
  simp [syslog.print, h]

theorem print_open (s : syslog) (P : Platform) (p : Int) (format : List Char)
    (ap : va_list) (h : bitand s._msk (LOG_MASK p) ≠ 0) (hl : s._log ≠ NULL) :
    s.print P p format ap =
      (s, (if bitand s._opt LOG_PERROR ≠ 0
            then [Event.stderr (c_str (s.print_str P format ap) ++ ['\n'])] else []) ++
          Event.ReportEventA s._log (evtype p) [c_str (s.print_str P format ap)]
              (P.ReportEventA s._log (evtype p) (c_str (s.print_str P format ap))) ::
            (if P.ReportEventA s._log (evtype p) (c_str (s.print_str P format ap)) then []
             else [Event.stdout (c_str (s.print_str P format ap) ++ ['\n'])])) := by
  simp [syslog.print, h, hl]

theorem print_closed (s : syslog) (P : Platform) (p : Int) (format : List Char)
    (ap : va_list) (h : bitand s._msk (LOG_MASK p) ≠ 0) (hl : s._log = NULL) :
    s.print P p format ap =
      ((s.openl P none LOG_PID 0).1,
        Event.RegisterEventSourceA (c_str (ident P none))
            (P.RegisterEventSourceA (c_str (ident P none))) ::
          (if P.RegisterEventSourceA (c_str (ident P none)) ≠ NULL then
            Event.ReportEventA (P.RegisterEventSourceA (c_str (ident P none))) (evtype p)
                [c_str ((s.openl P none LOG_PID 0).1.print_str P format ap)]
                (P.ReportEventA (P.RegisterEventSourceA (c_str (ident P none))) (evtype p)
                  (c_str ((s.openl P none LOG_PID 0).1.print_str P format ap))) ::
              (if P.ReportEventA (P.RegisterEventSourceA (c_str (ident P none))) (evtype p)
                  (c_str ((s.openl P none LOG_PID 0).1.print_str P format ap)) then []
               else [Event.stdout
                  (c_str ((s.openl P none LOG_PID 0).1.print_str P format ap) ++ ['\n'])])
           else [])) := by
  have hpe : bitand LOG_PID LOG_PERROR = 0 := by decide
  simp [syslog.print, syslog.openl, syslog.close, h, hl, hpe]

theorem openl_closed (s : syslog) (P : Platform) (id : Option (List Char)) (option facility : Int)
    (hl : s._log = NULL) :
    s.openl P id option facility =
      ({ _log := P.RegisterEventSourceA (c_str (ident P id)), _msk := s._msk, _opt := option },
        [Event.RegisterEventSourceA (c_str (ident P id))
          (P.RegisterEventSourceA (c_str (ident P id)))]) := by
  simp [syslog.openl, syslog.close, hl]

/-! ## Priority-to-severity mapping -/

/-- C1: for every integer priority `p` the severity computed by the chain in `print` is
Error for EMERG, ALERT, CRIT and ERR (0..3), Warning for WARNING (4), Information for NOTICE
and INFO (5, 6), AuditSuccess for DEBUG (7) and Success for every other integer; and every
`ReportEventA` call that `print` makes carries exactly that severity. -/
theorem C1_priority_to_severity (p : Int) :
    evtype p =
        (if p = 0 ∨ p = 1 ∨ p = 2 ∨ p = 3 then EVENTLOG_ERROR_TYPE
         else if p = 4 then EVENTLOG_WARNING_TYPE
         else if p = 5 ∨ p = 6 then EVENTLOG_INFORMATION_TYPE
         else if p = 7 then EVENTLOG_AUDIT_SUCCESS
         else EVENTLOG_SUCCESS) ∧
      ((p < 0 ∨ 7 < p) → evtype p = EVENTLOG_SUCCESS) ∧
      ∀ (s : syslog) (P : Platform) (format : List Char) (ap : va_list)
        (h : HANDLE) (ty : WORD) (strs : List (List Char)) (ok : Bool),
        Event.ReportEventA h ty strs ok ∈ (s.print P p format ap).2 → ty = evtype p := by
  refine ⟨?_, ?_, ?_⟩
  · simp only [evtype, Prio2Type, ToSuccess, LOG_EMERG, LOG_ALERT, LOG_CRIT, LOG_ERR,
      LOG_WARNING, LOG_NOTICE, LOG_INFO, LOG_DEBUG]
    split_ifs <;> first | rfl | omega
  · intro hp
    simp only [evtype, Prio2Type, ToSuccess, LOG_EMERG, LOG_ALERT, LOG_CRIT, LOG_ERR,
      LOG_WARNING, LOG_NOTICE, LOG_INFO, LOG_DEBUG]
    split_ifs <;> first | rfl | omega
  · intro s P format ap h ty strs ok hmem
    unfold syslog.print at hmem
    split_ifs at hmem <;> simp [syslog.openl, syslog.close] at hmem <;> exact hmem.2.2.1

/-! ## The mask test of `print` -/

/-- C2, as the claim states it, fails: on a freshly constructed facade (mask `-1`, every bit
set, no handle) and a host whose registration fails, `print` at `LOG_INFO` emits nothing at
all although bit 6 is set in the mask. -/
theorem C2_counterexample :
    noOutput (syslog.ctor.print failingHost LOG_INFO "started".toList []).2 = true ∧
      syslog.ctor._msk.testBit LOG_INFO.toNat = true ∧
      syslog.ctor._log = NULL ∧ 0 ≤ LOG_INFO ∧ LOG_INFO ≤ 7 := by
  refine ⟨?_, by decide, rfl, by decide, by decide⟩
  rw [print_closed _ _ _ _ _ (by decide) rfl]
  rfl

/-- C2 (amended): for each of the eight levels `p`, every mask, every facade state and every
outcome of registration and submission, `print` emits no output of any kind if and only if
bit `p` is clear in the mask, or no handle is present and the implicit registration
fails. -/
theorem C2_silent_iff (s : syslog) (P : Platform) (p : Int) (format : List Char)
    (ap : va_list) (h0 : 0 ≤ p) (h7 : p ≤ 7) :
    noOutput (s.print P p format ap).2 = true ↔
      (s._msk.testBit p.toNat = false ∨
        (s._log = NULL ∧ P.RegisterEventSourceA (c_str (ident P none)) = NULL)) := by
  have hmask : LOG_MASK p = ofBits32 (1 <<< p.toNat) := rfl
  have hbit := bitand_two_pow_ne_zero_iff s._msk p.toNat (by omega)
  rw [← hmask] at hbit
  by_cases hb : s._msk.testBit p.toNat = true
  · have hne : bitand s._msk (LOG_MASK p) ≠ 0 := hbit.mpr hb
    by_cases hl : s._log = NULL
    · rw [print_closed s P p format ap hne hl]
      by_cases hr : P.RegisterEventSourceA (c_str (ident P none)) = NULL
      · simp [noOutput, Event.isOutput, hr, hl]
      · cases hok : P.ReportEventA (P.RegisterEventSourceA (c_str (ident P none))) (evtype p)
            (c_str ((s.openl P none LOG_PID 0).1.print_str P format ap)) <;>
          simp [noOutput, Event.isOutput, hr, hb, hok]
    · rw [print_open s P p format ap hne hl]
      cases hok : P.ReportEventA s._log (evtype p) (c_str (s.print_str P format ap)) <;>
        simp [noOutput, Event.isOutput, hl, hb, hok]
  · have hz : bitand s._msk (LOG_MASK p) = 0 := by
      by_contra hne
      exact hb (hbit.mp hne)
    rw [print_filtered s P p format ap hz]
    simp [noOutput, hb]

/-- C2 (amended), at a concrete input: level `LOG_ERR`, mask `-1`, an open handle, and a host
on which submission succeeds. -/
theorem C2_silent_iff_witness :
    (0 ≤ LOG_ERR ∧ LOG_ERR ≤ 7) ∧
    (noOutput (({ _log := 7, _msk := -1, _opt := 0 } : syslog).print exampleHost LOG_ERR
        "failed %d".toList [Arg.int 7]).2 = true ↔
      ((-1 : Int).testBit LOG_ERR.toNat = false ∨
        ((7 : HANDLE) = NULL ∧
          exampleHost.RegisterEventSourceA (c_str (ident exampleHost none)) = NULL))) :=
  ⟨⟨by decide, by decide⟩,
    C2_silent_iff { _log := 7, _msk := -1, _opt := 0 } exampleHost LOG_ERR
      "failed %d".toList [Arg.int 7] (by decide) (by decide)⟩

/-! ## `setlogmask` -/

/-- C3: for every facade state with mask `m0` and every integer `m`, `setlogmask(m)` returns
`m0` and leaves the mask equal to `m` (handle and options untouched); hence in
`setlogmask(a); setlogmask(b)` the second call returns `a`. -/
theorem C3_setlogmask_swaps (log : syslog) (m : Int) :
    (setlogmask log m).1 = log._msk ∧ (setlogmask log m).2._msk = m ∧
      (setlogmask log m).2._log = log._log ∧ (setlogmask log m).2._opt = log._opt ∧
      ∀ a b : Int, (setlogmask (setlogmask log a).2 b).1 = a ∧
        (setlogmask (setlogmask log a).2 b).2._msk = b := by
  refine ⟨rfl, rfl, rfl, rfl, ?_⟩
  intro a b
  exact ⟨rfl, rfl⟩

end syslog_win32_impl

section ScenarioClaim

open syslog_win32_impl

/-- C4: starting from a freshly constructed facade, with registration and submission
succeeding, after `openlog("svc", LOG_PID, 0)` and `setlogmask(LOG_UPTO(LOG_WARNING))` the
call `syslog(LOG_INFO, "started %d", 7)` performs nothing on any sink (no platform call at
all), and `syslog(LOG_ERR, "failed %d", 7)` performs exactly one call, a successful
submission of one record of severity Error whose single string is the decimal process id
followed by `": failed 7"`. -/
theorem C4_scenario (P : Platform)
    (hreg : P.RegisterEventSourceA "svc".toList ≠ NULL)
    (hrep : ∀ (h : HANDLE) (ty : WORD) (msg : List Char), P.ReportEventA h ty msg = true)
    (hfmt : P.vformat "failed %d".toList [Arg.int 7] = "failed 7".toList)
    (hpid : P.pid < 2 ^ 32) :
    (scenarioInfo P).2 = [] ∧
      (scenarioErr P).2 =
        [Event.ReportEventA (P.RegisterEventSourceA "svc".toList) EVENTLOG_ERROR_TYPE
          [Nat.toDigits 10 P.pid ++ ": failed 7".toList] true] := by
  have hid : c_str (ident P (some "svc".toList)) = "svc".toList := by
    rw [ident_some]; decide
  have hlog : scenarioLog P =
      { _log := P.RegisterEventSourceA "svc".toList, _msk := LOG_UPTO LOG_WARNING,
        _opt := LOG_PID } := by
    simp only [scenarioLog, openlog, setlogmask, syslog_win32_impl.syslog.maskl,
      openl_closed syslog_win32_impl.syslog.ctor P _ _ _ rfl, hid]
  have hinfo : scenarioInfo P = (scenarioLog P, []) := by
    unfold scenarioInfo
    have hm : bitand (LOG_UPTO LOG_WARNING) (LOG_MASK LOG_INFO) = 0 := by decide
    exact print_filtered _ _ _ _ _ (by rw [hlog]; exact hm)
  have hnul : NUL ∉ P.vformat "failed %d".toList [Arg.int 7] := by
    rw [hfmt]; decide
  refine ⟨by rw [hinfo], ?_⟩
  unfold scenarioErr
  change (syslog_win32_impl.syslog.print _ _ _ _ _).2 = _
  have hm : bitand (LOG_UPTO LOG_WARNING) (LOG_MASK LOG_ERR) ≠ 0 := by decide
  rw [hinfo, hlog, print_open _ _ _ _ _ hm hreg, print_str_eq _ _ _ _ hpid hnul]
  have hpe : bitand LOG_PID LOG_PERROR = 0 := by decide
  have hpp : bitand LOG_PID LOG_PID ≠ 0 := by decide
  have hty : evtype LOG_ERR = EVENTLOG_ERROR_TYPE := by decide
  have hc : c_str (Nat.toDigits 10 P.pid ++ ": ".toList ++ P.vformat "failed %d".toList
      [Arg.int 7]) = Nat.toDigits 10 P.pid ++ ": failed 7".toList := by
    rw [hfmt, c_str_of_noNUL]
    · simp
    · intro hm
      rcases List.mem_append.mp hm with h1 | h1
      · rcases List.mem_append.mp h1 with h2 | h2
        · exact toDigits_noNUL _ h2
        · revert h2; decide
      · revert h1; decide
  simp only [hpe, hpp, hty, hrep, hc, ne_eq, not_true_eq_false, not_false_eq_true, if_true,
    if_false, List.nil_append]

/-- C4 at a concrete host (process id 4242, handle 7): the one record carries the text
`4242: failed 7`. -/
theorem C4_scenario_witness :
    (scenarioInfo exampleHost).2 = [] ∧
      (scenarioErr exampleHost).2 =
        [Event.ReportEventA 7 EVENTLOG_ERROR_TYPE ["4242: failed 7".toList] true] :=
  C4_scenario exampleHost (by decide) (fun _ _ _ => rfl) (by decide) (by decide)

end ScenarioClaim

namespace syslog_win32_impl

/-! ## Identity derivation -/

/-- C5: for every explicitly supplied identity string `s`, `ident(s)` returns (it is a total
function) a string of the same length as `s` that has an underscore at every position where
`s` has a slash or a backslash and the character of `s` at every other position; the result
contains neither separator. -/
theorem C5_ident_explicit (P : Platform) (s : List Char) :
    (ident P (some s)).length = s.length ∧
      (∀ i : Nat, (ident P (some s))[i]? =
        (s[i]?).map (fun x => if x = '/' ∨ x = BACKSLASH then '_' else x)) ∧
      '/' ∉ ident P (some s) ∧ BACKSLASH ∉ ident P (some s) := by
  rw [ident_some]
  refine ⟨by simp, fun i => by simp, ?_, ?_⟩
  · intro hm
    obtain ⟨x, _, hx⟩ := List.mem_map.mp hm
    by_cases h : x = '/' ∨ x = BACKSLASH
    · rw [if_pos h] at hx; revert hx; decide
    · rw [if_neg h] at hx; exact h (Or.inl hx)
  · intro hm
    obtain ⟨x, _, hx⟩ := List.mem_map.mp hm
    by_cases h : x = '/' ∨ x = BACKSLASH
    · rw [if_pos h] at hx; revert hx; decide
    · rw [if_neg h] at hx; exact h (Or.inr hx)

/-- C6: when no identity is supplied and the executable-path lookup succeeds with a path
that fits the `MAX_PATH` buffer, `ident` returns the base name of the path: the result
contains no separator, and it is either the path itself (which then contains no separator)
or what follows a separator of the path, that is, what follows its last separator of either
kind, in whatever order the two kinds occur. -/
theorem C6_ident_base_name (P : Platform) (path : List Char)
    (h : P.modulePath = some path) (hlen : path.length < MAX_PATH) (hnul : NUL ∉ path) :
    ('/' ∉ ident P none ∧ BACKSLASH ∉ ident P none) ∧
      (ident P none = path ∨
        ∃ (pre : List Char) (sep : Char), (sep = '/' ∨ sep = BACKSLASH) ∧
          path = pre ++ sep :: ident P none) := by
  rw [ident_none_of_lookup_success P path h hlen hnul]
  generalize hA : (match rfind path BACKSLASH with
                    | some pos => substr path (pos + 1)
                    | none => path) = A
  have hA1 : BACKSLASH ∉ A ∧ (A = path ∨ ∃ pre, path = pre ++ BACKSLASH :: A) := by
    rw [← hA]
    split
    · rename_i pos hpos
      obtain ⟨h1, pre, h2⟩ := rfind_some _ _ _ hpos
      exact ⟨h1, Or.inr ⟨pre, h2⟩⟩
    · rename_i hn
      exact ⟨rfind_none _ _ hn, Or.inl rfl⟩
  generalize hB : (match rfind A '/' with
       | some pos => substr A (pos + 1)
       | none => A) = B
  have hB1 : '/' ∉ B ∧ (B = A ∨ ∃ pre, A = pre ++ '/' :: B) := by
    rw [← hB]
    split
    · rename_i pos hpos
      obtain ⟨h1, pre, h2⟩ := rfind_some _ _ _ hpos
      exact ⟨h1, Or.inr ⟨pre, h2⟩⟩
    · rename_i hn
      exact ⟨rfind_none _ _ hn, Or.inl rfl⟩
  obtain ⟨hA2, hA3⟩ := hA1
  obtain ⟨hB2, hB3⟩ := hB1
  have hB4 : BACKSLASH ∉ B := by
    rcases hB3 with h1 | ⟨pre, h1⟩
    · rw [h1]; exact hA2
    · intro hm; apply hA2; rw [h1]; simp [hm]
  refine ⟨⟨hB2, hB4⟩, ?_⟩
  rcases hB3 with h1 | ⟨pre1, h1⟩
  · rcases hA3 with h2 | ⟨pre2, h2⟩
    · exact Or.inl (h1.trans h2)
    · exact Or.inr ⟨pre2, BACKSLASH, Or.inr rfl, by rw [h1]; exact h2⟩
  · rcases hA3 with h2 | ⟨pre2, h2⟩
    · exact Or.inr ⟨pre1, '/', Or.inl rfl, by rw [← h2]; exact h1⟩
    · exact Or.inr ⟨pre2 ++ BACKSLASH :: pre1, '/', Or.inl rfl, by rw [h2, h1]; simp⟩

/-- C6 at a concrete host whose executable path is `C:\Tools/bin\logger.exe`. -/
theorem C6_ident_base_name_witness :
    (exampleHost.modulePath = some examplePath ∧ examplePath.length < MAX_PATH ∧
        NUL ∉ examplePath) ∧
      ('/' ∉ ident exampleHost none ∧ BACKSLASH ∉ ident exampleHost none) ∧
      (ident exampleHost none = examplePath ∨
        ∃ (pre : List Char) (sep : Char), (sep = '/' ∨ sep = BACKSLASH) ∧
          examplePath = pre ++ sep :: ident exampleHost none) :=
  ⟨⟨rfl, by decide, by decide⟩,
    C6_ident_base_name exampleHost examplePath rfl (by decide) (by decide)⟩

/-- C7, as the claim states it, fails: on a host whose executable is
`C:\Tools/bin\logger.exe`, the empty string passed as identity yields the empty identity,
while the absent identity yields the base name `logger.exe`. -/
theorem C7_counterexample :
    ident exampleHost (some []) = [] ∧ ident exampleHost none = "logger.exe".toList := by
  refine ⟨by rw [ident_some]; rfl, ?_⟩
  rw [ident_none_of_lookup_success exampleHost examplePath rfl (by decide) (by decide)]
  decide

/-- C7 (amended): an empty identity is not treated like an absent one; for the empty string
passed as identity `ident` returns the empty identity on every host, whatever the
executable path. -/
theorem C7_empty_identity_kept (P : Platform) : ident P (some []) = [] := by
  rw [ident_some]; rfl

/-- C8 (the code at the failing input): `FAILED` is false for every value
`GetModuleFileNameA` can return, so the placeholder is never taken; when no identity is
supplied and the lookup fails (returns 0), `ident` returns the empty string, not
`__undefined_module__`, and `openl` registers the event source under the empty name. -/
theorem C8_failed_lookup_yields_empty (pid : Nat) (reg : List Char → HANDLE)
    (rep : HANDLE → WORD → List Char → Bool) (vf : List Char → va_list → List Char)
    (option facility : Int) :
    (∀ r : Nat, r ≤ MAX_PATH → FAILED r = false) ∧
      ident ⟨none, pid, reg, rep, vf⟩ none = [] ∧
      undefined_module = "__undefined_module__".toList ∧
      (syslog.ctor.openl ⟨none, pid, reg, rep, vf⟩ none option facility).2 =
        [Event.RegisterEventSourceA [] (reg [])] := by
  have hid : ident ⟨none, pid, reg, rep, vf⟩ none = [] :=
    ident_none_of_lookup_failure _ rfl
  refine ⟨fun r hr => FAILED_of_lt r (by have : MAX_PATH = 260 := rfl; omega), hid, rfl, ?_⟩
  rw [openl_closed _ _ _ _ _ rfl, hid]
  rfl

/-! ## The formatter -/

/-- C9: for every expanded message text (a C string) and every process id (a `DWORD`), the
formatter returns the decimal representation of the process id, then `": "`, then the text
when `LOG_PID` (bit 0) is set in the options, and exactly the text when it is not. -/
theorem C9_process_id_text (s : syslog) (P : Platform) (format : List Char) (ap : va_list)
    (hpid : P.pid < 2 ^ 32) (ht : NUL ∉ P.vformat format ap) :
    (s._opt.testBit 0 = true →
        s.print_str P format ap = Nat.toDigits 10 P.pid ++ ": ".toList ++ P.vformat format ap) ∧
      (s._opt.testBit 0 = false → s.print_str P format ap = P.vformat format ap) := by
  have hbit := bitand_two_pow_ne_zero_iff s._opt 0 (by norm_num)
  have hP : ofBits32 (1 <<< 0) = LOG_PID := by decide
  rw [hP] at hbit
  rw [print_str_eq s P format ap hpid ht]
  constructor
  · intro h1
    rw [if_pos (hbit.mpr h1)]
  · intro h1
    rw [if_neg]
    intro h2
    rw [hbit.mp h2] at h1
    cases h1

/-- C9 at a concrete input: process id 4242, text `failed 7`, with options `LOG_PID`. -/
theorem C9_process_id_text_witness :
    (exampleHost.pid < 2 ^ 32 ∧ NUL ∉ exampleHost.vformat "failed %d".toList [Arg.int 7]) ∧
      (({ _log := 7, _msk := -1, _opt := LOG_PID } : syslog).print_str exampleHost
        "failed %d".toList [Arg.int 7] = "4242: failed 7".toList) :=
  ⟨⟨by decide, by decide⟩,
    (C9_process_id_text { _log := 7, _msk := -1, _opt := LOG_PID } exampleHost
      "failed %d".toList [Arg.int 7] (by decide) (by decide)).1 (by decide)⟩

/-- C10: for every format expansion (a C string) of any length `L`, below, at or above the
256-byte scratch buffer, the formatter's `msg` is the full expansion, exactly `L`
characters, neither truncated nor padded; so is the returned string when `LOG_PID` is not
set. -/
theorem C10_full_expansion (P : Platform) (format : List Char) (ap : va_list)
    (ht : NUL ∉ P.vformat format ap) :
    syslog.print_msg P format ap = P.vformat format ap ∧
      (syslog.print_msg P format ap).length = (P.vformat format ap).length ∧
      ∀ s : syslog, bitand s._opt LOG_PID = 0 →
        s.print_str P format ap = P.vformat format ap := by
  have h := print_msg_eq P format ap ht
  refine ⟨h, by rw [h], ?_⟩
  intro s hs
  simp only [syslog.print_str, h, hs, ne_eq, not_true_eq_false, if_false]

/-- C10 at a concrete input: an expansion of 257 characters. -/
theorem C10_full_expansion_witness :
    NUL ∉ longHost.vformat [] [] ∧
      syslog.print_msg longHost [] [] = List.replicate 257 'x' ∧
      (syslog.print_msg longHost [] []).length = 257 :=
  ⟨by decide, (C10_full_expansion longHost [] [] (by decide)).1,
    by rw [(C10_full_expansion longHost [] [] (by decide)).1]; exact List.length_replicate _ _⟩

/-! ## Helper lemmas: levels, formatted text, traces -/

/-- For the eight levels the mask test of `print` reads bit `p` of the mask. -/
theorem mask_test_iff (m p : Int) (h0 : 0 ≤ p) (h7 : p ≤ 7) :
    bitand m (LOG_MASK p) ≠ 0 ↔ m.testBit p.toNat = true :=
  bitand_two_pow_ne_zero_iff m p.toNat (by omega)

/-- The echo test of `print`, `(_opt & LOG_PERROR) != 0`, reads bit 5 of the options. -/
theorem perror_test_iff (o : Int) : bitand o LOG_PERROR ≠ 0 ↔ o.testBit 5 = true := by
  have h := bitand_two_pow_ne_zero_iff o 5 (by norm_num)
  have hP : ofBits32 (1 <<< 5) = LOG_PERROR := by decide
  rw [hP] at h
  exact h

theorem resize_strlen (b : List Char) : resize b (strlen b) = c_str b := by
  unfold resize strlen c_str
  have hle : (b.takeWhile (fun c => c != NUL)).length ≤ b.length :=
    (List.takeWhile_prefix _).length_le
  have h0 : (b.takeWhile (fun c => c != NUL)).length - b.length = 0 := by omega
  rw [h0, List.replicate_zero, List.append_nil]
  exact (List.prefix_iff_eq_take.mp (List.takeWhile_prefix _)).symm

theorem c_str_noNUL (b : List Char) : NUL ∉ c_str b := by
  intro h
  have := List.mem_takeWhile_imp h
  simp at this

/-- What the formatter returns never holds a terminator, so `c_str()` designates all of
it. -/
theorem c_str_print_str (s : syslog) (P : Platform) (format : List Char) (ap : va_list) :
    c_str (s.print_str P format ap) = s.print_str P format ap := by
  apply c_str_of_noNUL
  have hmsg : NUL ∉ syslog.print_msg P format ap := by
    unfold syslog.print_msg
    simp only [resize_strlen]
    exact c_str_noNUL _
  unfold syslog.print_str
  simp only [resize_strlen]
  split_ifs
  · intro hm
    rcases List.mem_append.mp hm with h1 | h1
    · rcases List.mem_append.mp h1 with h2 | h2
      · exact c_str_noNUL _ h2
      · revert h2; decide
    · exact hmsg h1
  · exact hmsg

/-- With `LOG_PID` as the options the formatter puts the process id in front. -/
theorem print_str_pid (s : syslog) (P : Platform) (format : List Char) (ap : va_list)
    (ho : s._opt = LOG_PID) (hpid : P.pid < 2 ^ 32) :
    s.print_str P format ap =
      Nat.toDigits 10 P.pid ++ ": ".toList ++ syslog.print_msg P format ap := by
  have hpp : bitand LOG_PID LOG_PID ≠ 0 := by decide
  unfold syslog.print_str
  simp only [ho, hpp, ne_eq, not_false_eq_true, if_true, pid_text_eq P.pid hpid]

theorem stdoutWrites_append (a b : List Event) :
    stdoutWrites (a ++ b) = stdoutWrites a ++ stdoutWrites b := by
  induction a with
  | nil => rfl
  | cons e a ih => cases e <;> simp [stdoutWrites, ih]

theorem stderrWrites_append (a b : List Event) :
    stderrWrites (a ++ b) = stderrWrites a ++ stderrWrites b := by
  induction a with
  | nil => rfl
  | cons e a ih => cases e <;> simp [stderrWrites, ih]

/-- A permitted `print` that finds no handle, in full: the state is that of the lazy open,
the first call is the registration under the default identity, and only when it succeeds
the text formatted under `LOG_PID` is submitted, with the standard-output fallback after a
failed submission. -/
theorem print_closed_full (s : syslog) (P : Platform) (p : Int) (format : List Char)
    (ap : va_list) (h : bitand s._msk (LOG_MASK p) ≠ 0) (hl : s._log = NULL) :
    s.print P p format ap =
      ({ _log := P.RegisterEventSourceA (c_str (ident P none)), _msk := s._msk,
         _opt := LOG_PID },
        Event.RegisterEventSourceA (c_str (ident P none))
            (P.RegisterEventSourceA (c_str (ident P none))) ::
          (if P.RegisterEventSourceA (c_str (ident P none)) ≠ NULL then
            Event.ReportEventA (P.RegisterEventSourceA (c_str (ident P none))) (evtype p)
                [({ _log := P.RegisterEventSourceA (c_str (ident P none)), _msk := s._msk,
                    _opt := LOG_PID } : syslog).print_str P format ap]
                (P.ReportEventA (P.RegisterEventSourceA (c_str (ident P none))) (evtype p)
                  (({ _log := P.RegisterEventSourceA (c_str (ident P none)), _msk := s._msk,
                      _opt := LOG_PID } : syslog).print_str P format ap)) ::
              (if P.ReportEventA (P.RegisterEventSourceA (c_str (ident P none))) (evtype p)
                  (({ _log := P.RegisterEventSourceA (c_str (ident P none)), _msk := s._msk,
                      _opt := LOG_PID } : syslog).print_str P format ap) then []
               else [Event.stdout
                  (({ _log := P.RegisterEventSourceA (c_str (ident P none)), _msk := s._msk,
                      _opt := LOG_PID } : syslog).print_str P format ap ++ ['\n'])])
           else [])) := by
  have hst : (s.openl P none LOG_PID 0).1 =
      { _log := P.RegisterEventSourceA (c_str (ident P none)), _msk := s._msk,
        _opt := LOG_PID } := by
    rw [openl_closed s P none LOG_PID 0 hl]
  rw [print_closed s P p format ap h hl]
  simp only [c_str_print_str, hst]

/-! ## Printing without a handle -/

/-- C11, as the claim states it, fails: after `closelog()` on an open facade (handle 7, every
level permitted), on a host whose registration fails, a print at `LOG_INFO` performs the
re-open attempt and then emits nothing on any sink. -/
theorem C11_counterexample :
    (closelog openLog).1._msk.testBit LOG_INFO.toNat = true ∧
      (vsyslog (closelog openLog).1 failingHost LOG_INFO "started".toList []).2 =
        [Event.RegisterEventSourceA [] NULL] ∧
      noOutput (vsyslog (closelog openLog).1 failingHost LOG_INFO "started".toList []).2
        = true := by
  have hid : ident failingHost none = [] := ident_none_of_lookup_failure _ rfl
  have htr : (vsyslog (closelog openLog).1 failingHost LOG_INFO "started".toList []).2 =
      [Event.RegisterEventSourceA [] NULL] := by
    unfold vsyslog closelog
    rw [print_closed _ _ _ _ _ (by decide) rfl, hid]
    rfl
  refine ⟨by decide, htr, ?_⟩
  rw [htr]
  rfl

/-- C11 (amended): for every facade state and every outcome of registration and submission,
after `closelog()` a print at a level permitted by the mask performs the implicit re-open:
the handle stored is the result of the registration under the default identity, the
options become `LOG_PID`, and the platform calls are that registration and, only when it
succeeds, one submission whose single string is the formatted message text (process id,
`": "`, message), followed when the submission fails by that text and a newline on standard
output.  So the message appears on at least one sink if and only if the registration
succeeds. -/
theorem C11_reopen_after_closelog (s : syslog) (P : Platform) (p : Int) (format : List Char)
    (ap : va_list) (h0 : 0 ≤ p) (h7 : p ≤ 7) (hb : s._msk.testBit p.toNat = true) :
    (vsyslog (closelog s).1 P p format ap).1 =
        { _log := P.RegisterEventSourceA (c_str (ident P none)), _msk := s._msk,
          _opt := LOG_PID } ∧
      (vsyslog (closelog s).1 P p format ap).2 =
        Event.RegisterEventSourceA (c_str (ident P none))
            (P.RegisterEventSourceA (c_str (ident P none))) ::
          (if P.RegisterEventSourceA (c_str (ident P none)) ≠ NULL then
            Event.ReportEventA (P.RegisterEventSourceA (c_str (ident P none))) (evtype p)
                [(vsyslog (closelog s).1 P p format ap).1.print_str P format ap]
                (P.ReportEventA (P.RegisterEventSourceA (c_str (ident P none))) (evtype p)
                  ((vsyslog (closelog s).1 P p format ap).1.print_str P format ap)) ::
              (if P.ReportEventA (P.RegisterEventSourceA (c_str (ident P none))) (evtype p)
                  ((vsyslog (closelog s).1 P p format ap).1.print_str P format ap) then []
               else [Event.stdout
                  ((vsyslog (closelog s).1 P p format ap).1.print_str P format ap ++ ['\n'])])
           else []) ∧
      (P.pid < 2 ^ 32 →
        (vsyslog (closelog s).1 P p format ap).1.print_str P format ap =
          Nat.toDigits 10 P.pid ++ ": ".toList ++ syslog.print_msg P format ap) ∧
      (noOutput (vsyslog (closelog s).1 P p format ap).2 = false ↔
        P.RegisterEventSourceA (c_str (ident P none)) ≠ NULL) := by
  have hne : bitand (closelog s).1._msk (LOG_MASK p) ≠ 0 := (mask_test_iff s._msk p h0 h7).mpr hb
  have hfull := print_closed_full (closelog s).1 P p format ap hne rfl
  have hm : (closelog s).1._msk = s._msk := rfl
  rw [hm] at hfull
  have hst : (vsyslog (closelog s).1 P p format ap).1 =
      { _log := P.RegisterEventSourceA (c_str (ident P none)), _msk := s._msk,
        _opt := LOG_PID } := by
    unfold vsyslog; rw [hfull]
  refine ⟨hst, ?_, ?_, ?_⟩
  · rw [hst]
    unfold vsyslog; rw [hfull]
  · intro hpid
    exact print_str_pid _ P format ap (by rw [hst]) hpid
  · unfold vsyslog
    rw [hfull]
    by_cases hr : P.RegisterEventSourceA (c_str (ident P none)) = NULL
    · simp [noOutput, Event.isOutput, hr]
    · cases hok : P.ReportEventA (P.RegisterEventSourceA (c_str (ident P none))) (evtype p)
          (({ _log := P.RegisterEventSourceA (c_str (ident P none)), _msk := s._msk,
              _opt := LOG_PID } : syslog).print_str P format ap) <;>
        simp [noOutput, Event.isOutput, hr, hok]

/-- C11 (amended) at a concrete input: the open example facade, closed and then printing at
`LOG_ERR` on the host where every call succeeds; the one record carries `4242: failed 7`. -/
theorem C11_reopen_after_closelog_witness :
    (0 ≤ LOG_ERR ∧ LOG_ERR ≤ 7 ∧ openLog._msk.testBit LOG_ERR.toNat = true) ∧
      (vsyslog (closelog openLog).1 exampleHost LOG_ERR "failed %d".toList [Arg.int 7]).1 =
        { _log := 7, _msk := -1, _opt := LOG_PID } ∧
      (vsyslog (closelog openLog).1 exampleHost LOG_ERR "failed %d".toList [Arg.int 7]).2 =
        [Event.RegisterEventSourceA "logger.exe".toList 7,
          Event.ReportEventA 7 EVENTLOG_ERROR_TYPE ["4242: failed 7".toList] true] :=
  ⟨⟨by decide, by decide, by decide⟩,
    (C11_reopen_after_closelog openLog exampleHost LOG_ERR "failed %d".toList [Arg.int 7]
      (by decide) (by decide) (by decide)).1,
    (C11_reopen_after_closelog openLog exampleHost LOG_ERR "failed %d".toList [Arg.int 7]
      (by decide) (by decide) (by decide)).2.1.trans (by
        have hst := (C11_reopen_after_closelog openLog exampleHost LOG_ERR
          "failed %d".toList [Arg.int 7] (by decide) (by decide) (by decide)).1
        have hid : c_str (ident exampleHost none) = "logger.exe".toList := by
          rw [ident_none_of_lookup_success exampleHost examplePath rfl (by decide) (by decide)]
          decide
        have htx : ∀ (l : HANDLE) (m : Int),
            ({ _log := l, _msk := m, _opt := LOG_PID } : syslog).print_str exampleHost
              "failed %d".toList [Arg.int 7] = "4242: failed 7".toList := by
          intro l m
          rw [print_str_eq _ _ _ _ (by decide) (by decide)]
          show (if bitand LOG_PID LOG_PID ≠ 0 then
              Nat.toDigits 10 exampleHost.pid ++ ": ".toList ++
                exampleHost.vformat "failed %d".toList [Arg.int 7]
            else exampleHost.vformat "failed %d".toList [Arg.int 7]) = "4242: failed 7".toList
          decide
        have hr : ∀ n : List Char, exampleHost.RegisterEventSourceA n = 7 := fun _ => rfl
        have hok : ∀ (h : HANDLE) (ty : WORD) (m : List Char),
            exampleHost.ReportEventA h ty m = true := fun _ _ _ => rfl
        rw [hst]
        simp only [hid, hr, htx, hok]
        decide)⟩

/-- C12, as the claim states it, fails: after `openl` with a failing registration, a print
at the permitted level `LOG_ERR` on the same host retries the registration and writes
nothing to standard output. -/
theorem C12_counterexample :
    (syslog.ctor.openl failingHost (some "svc".toList) 0 0).1._log = NULL ∧
      (syslog.ctor.openl failingHost (some "svc".toList) 0 0).1._msk.testBit LOG_ERR.toNat
        = true ∧
      ((syslog.ctor.openl failingHost (some "svc".toList) 0 0).1.print failingHost LOG_ERR
          "failed %d".toList [Arg.int 7]).2 = [Event.RegisterEventSourceA [] NULL] ∧
      stdoutWrites ((syslog.ctor.openl failingHost (some "svc".toList) 0 0).1.print failingHost
          LOG_ERR "failed %d".toList [Arg.int 7]).2 = [] := by
  have hid : ident failingHost none = [] := ident_none_of_lookup_failure _ rfl
  have hst : (syslog.ctor.openl failingHost (some "svc".toList) 0 0).1 =
      { _log := NULL, _msk := -1, _opt := 0 } := by
    rw [openl_closed _ _ _ _ _ rfl]; rfl
  have htr : ((syslog.ctor.openl failingHost (some "svc".toList) 0 0).1.print failingHost
      LOG_ERR "failed %d".toList [Arg.int 7]).2 = [Event.RegisterEventSourceA [] NULL] := by
    rw [hst, print_closed _ _ _ _ _ (by decide) rfl, hid]
    rfl
  refine ⟨by rw [hst], by rw [hst]; decide, htr, ?_⟩
  rw [htr]
  rfl

/-- C12 (amended): when the registration of `openl` fails, `openl` returns with no handle
stored and the options set; every later print at a permitted level that finds no handle
first retries the registration through the lazy open, which sets the options to `LOG_PID`.
If the retry fails too, that is the only platform call: no submission, nothing on standard
output, and the handle stays absent.  If the retry succeeds, the formatted message text
(process id, `": "`, message) is submitted as the single string of one structured record,
and written with a newline to standard output only when that submission fails. -/
theorem C12_after_failed_registration (s t : syslog) (P1 P2 : Platform)
    (id : Option (List Char)) (option facility p : Int) (format : List Char) (ap : va_list)
    (hfail : P1.RegisterEventSourceA (c_str (ident P1 id)) = NULL)
    (ht : t._log = NULL) (h0 : 0 ≤ p) (h7 : p ≤ 7) (hb : t._msk.testBit p.toNat = true) :
    (s.openl P1 id option facility).1 = { _log := NULL, _msk := s._msk, _opt := option } ∧
      (P2.RegisterEventSourceA (c_str (ident P2 none)) = NULL →
        t.print P2 p format ap =
          ({ _log := NULL, _msk := t._msk, _opt := LOG_PID },
            [Event.RegisterEventSourceA (c_str (ident P2 none)) NULL])) ∧
      (P2.RegisterEventSourceA (c_str (ident P2 none)) ≠ NULL →
        t.print P2 p format ap =
          ({ _log := P2.RegisterEventSourceA (c_str (ident P2 none)), _msk := t._msk,
             _opt := LOG_PID },
            Event.RegisterEventSourceA (c_str (ident P2 none))
                (P2.RegisterEventSourceA (c_str (ident P2 none))) ::
              Event.ReportEventA (P2.RegisterEventSourceA (c_str (ident P2 none))) (evtype p)
                  [(t.print P2 p format ap).1.print_str P2 format ap]
                  (P2.ReportEventA (P2.RegisterEventSourceA (c_str (ident P2 none))) (evtype p)
                    ((t.print P2 p format ap).1.print_str P2 format ap)) ::
                (if P2.ReportEventA (P2.RegisterEventSourceA (c_str (ident P2 none)))
                    (evtype p) ((t.print P2 p format ap).1.print_str P2 format ap) then []
                 else [Event.stdout
                    ((t.print P2 p format ap).1.print_str P2 format ap ++ ['\n'])]))) ∧
      (P2.pid < 2 ^ 32 →
        (t.print P2 p format ap).1.print_str P2 format ap =
          Nat.toDigits 10 P2.pid ++ ": ".toList ++ syslog.print_msg P2 format ap) := by
  have hne : bitand t._msk (LOG_MASK p) ≠ 0 := (mask_test_iff t._msk p h0 h7).mpr hb
  have hfull := print_closed_full t P2 p format ap hne ht
  have hst : (t.print P2 p format ap).1 =
      { _log := P2.RegisterEventSourceA (c_str (ident P2 none)), _msk := t._msk,
        _opt := LOG_PID } := by rw [hfull]
  refine ⟨?_, ?_, ?_, ?_⟩
  · simp [syslog.openl, syslog.close, hfail]
  · intro hr
    rw [hfull]
    simp [hr]
  · intro hr
    rw [hst]
    rw [hfull]
    simp only [hr, ne_eq, not_false_eq_true, if_true]
  · intro hpid
    exact print_str_pid _ P2 format ap (by rw [hst]) hpid

/-- C12 (amended) at a concrete input: `openl` on the host whose registration fails, then a
print whose retry fails as well. -/
theorem C12_after_failed_registration_witness :
    (failingHost.RegisterEventSourceA (c_str (ident failingHost (some "svc".toList))) = NULL ∧
        unregisteredLog._log = NULL ∧ 0 ≤ LOG_ERR ∧ LOG_ERR ≤ 7 ∧
        unregisteredLog._msk.testBit LOG_ERR.toNat = true) ∧
      (syslog.ctor.openl failingHost (some "svc".toList) LOG_PERROR 0).1 = unregisteredLog ∧
      (failingHost.RegisterEventSourceA (c_str (ident failingHost none)) = NULL →
        unregisteredLog.print failingHost LOG_ERR "failed %d".toList [Arg.int 7] =
          ({ _log := NULL, _msk := -1, _opt := LOG_PID },
            [Event.RegisterEventSourceA (c_str (ident failingHost none)) NULL])) ∧
      (exampleHost.pid < 2 ^ 32 →
        (unregisteredLog.print exampleHost LOG_ERR "failed %d".toList
            [Arg.int 7]).1.print_str exampleHost "failed %d".toList [Arg.int 7] =
          Nat.toDigits 10 exampleHost.pid ++ ": ".toList ++
            syslog.print_msg exampleHost "failed %d".toList [Arg.int 7]) :=
  ⟨⟨rfl, rfl, by decide, by decide, by decide⟩,
    (C12_after_failed_registration syslog.ctor unregisteredLog failingHost failingHost
      (some "svc".toList) LOG_PERROR 0 LOG_ERR "failed %d".toList [Arg.int 7] rfl rfl
      (by decide) (by decide) (by decide)).1,
    (C12_after_failed_registration syslog.ctor unregisteredLog failingHost failingHost
      (some "svc".toList) LOG_PERROR 0 LOG_ERR "failed %d".toList [Arg.int 7] rfl rfl
      (by decide) (by decide) (by decide)).2.1,
    (C12_after_failed_registration syslog.ctor unregisteredLog failingHost exampleHost
      (some "svc".toList) LOG_PERROR 0 LOG_ERR "failed %d".toList [Arg.int 7] rfl rfl
      (by decide) (by decide) (by decide)).2.2.2⟩

/-! ## The two text streams -/

/-- C13: `print` writes to standard output if and only if the level is permitted, a handle
is present after the lazy-open step (the handle of the resulting state) and the submission
fails; it then writes the formatted message text followed by a newline, once.  So nothing
is written to standard output when no handle is present after the lazy-open step. -/
theorem C13_stdout_fallback (s : syslog) (P : Platform) (p : Int) (format : List Char)
    (ap : va_list) (h0 : 0 ≤ p) (h7 : p ≤ 7) :
    stdoutWrites (s.print P p format ap).2 =
        (if s._msk.testBit p.toNat = true ∧ (s.print P p format ap).1._log ≠ NULL ∧
            P.ReportEventA (s.print P p format ap).1._log (evtype p)
              ((s.print P p format ap).1.print_str P format ap) = false
         then [(s.print P p format ap).1.print_str P format ap ++ ['\n']] else []) ∧
      ((s.print P p format ap).1._log = NULL → stdoutWrites (s.print P p format ap).2 = []) := by
  have hbit := mask_test_iff s._msk p h0 h7
  have key : stdoutWrites (s.print P p format ap).2 =
      (if s._msk.testBit p.toNat = true ∧ (s.print P p format ap).1._log ≠ NULL ∧
          P.ReportEventA (s.print P p format ap).1._log (evtype p)
            ((s.print P p format ap).1.print_str P format ap) = false
       then [(s.print P p format ap).1.print_str P format ap ++ ['\n']] else []) := by
    by_cases hb : s._msk.testBit p.toNat = true
    · have hne := hbit.mpr hb
      by_cases hl : s._log = NULL
      · rw [print_closed s P p format ap hne hl]
        simp only [c_str_print_str]
        by_cases hr : P.RegisterEventSourceA (c_str (ident P none)) = NULL
        · have h1 : (s.openl P none LOG_PID 0).1._log = NULL := by
            simp [syslog.openl, syslog.close, hr]
          simp [stdoutWrites, hr, h1]
        · have h1 : (s.openl P none LOG_PID 0).1._log =
              P.RegisterEventSourceA (c_str (ident P none)) := by
            simp [syslog.openl, syslog.close]
          cases hok : P.ReportEventA (P.RegisterEventSourceA (c_str (ident P none)))
              (evtype p) ((s.openl P none LOG_PID 0).1.print_str P format ap) <;>
            simp [stdoutWrites, hr, h1, hb, hok]
      · rw [print_open s P p format ap hne hl]
        simp only [c_str_print_str]
        cases hok : P.ReportEventA s._log (evtype p) (s.print_str P format ap) <;>
          by_cases he : bitand s._opt LOG_PERROR = 0 <;>
          simp [stdoutWrites, hl, hb, hok, he]
    · have hz : bitand s._msk (LOG_MASK p) = 0 := by
        by_contra hne
        exact hb (hbit.mp hne)
      rw [print_filtered s P p format ap hz]
      simp [stdoutWrites, hb]
  refine ⟨key, ?_⟩
  intro hn
  rw [key, if_neg]
  intro h
  exact h.2.1 hn

/-- C13 at a concrete input: an open facade on a host that rejects every submission; the
one line on standard output is `failed 7`. -/
theorem C13_stdout_fallback_witness :
    (0 ≤ LOG_ERR ∧ LOG_ERR ≤ 7) ∧
      stdoutWrites (openLog.print rejectingHost LOG_ERR "failed %d".toList [Arg.int 7]).2 =
        ["failed 7".toList ++ ['\n']] :=
  ⟨⟨by decide, by decide⟩,
    (C13_stdout_fallback openLog rejectingHost LOG_ERR "failed %d".toList [Arg.int 7]
      (by decide) (by decide)).1.trans (by
        have hst : (openLog.print rejectingHost LOG_ERR "failed %d".toList [Arg.int 7]).1
            = openLog := by
          rw [print_open _ _ _ _ _ (by decide) (by decide)]
        have htx : openLog.print_str rejectingHost "failed %d".toList [Arg.int 7]
            = "failed 7".toList := by
          have hnul : NUL ∉ rejectingHost.vformat "failed %d".toList [Arg.int 7] := by decide
          simp only [syslog.print_str, print_msg_eq _ _ _ hnul]
          decide
        rw [hst, htx]
        decide)⟩

/-- C14, as the claim states it, fails: with the handle absent and the options requesting
the echo to standard error (as `openlog( "svc", LOG_PERROR, 0 )` leaves them when its
registration fails), a permitted print writes nothing to standard error, even on a host
where the lazy registration and the submission succeed. -/
theorem C14_counterexample :
    unregisteredLog._opt.testBit 5 = true ∧ LOG_PERROR = 32 ∧
      unregisteredLog._msk.testBit LOG_ERR.toNat = true ∧
      (openlog syslog.ctor failingHost (some "svc".toList) LOG_PERROR 0).1 = unregisteredLog ∧
      stderrWrites (unregisteredLog.print exampleHost LOG_ERR "failed %d".toList
        [Arg.int 7]).2 = [] := by
  refine ⟨by decide, by decide, by decide, ?_, ?_⟩
  · unfold openlog
    rw [openl_closed _ _ _ _ _ rfl]; rfl
  · rw [print_closed _ _ _ _ _ (by decide) rfl]
    have hr : exampleHost.RegisterEventSourceA (c_str (ident exampleHost none)) = 7 := rfl
    have hok : ∀ (h : HANDLE) (ty : WORD) (m : List Char),
        exampleHost.ReportEventA h ty m = true := fun _ _ _ => rfl
    simp only [hr, hok]
    rfl

/-- C14 (amended): for every permitted print that finds a handle present, if the options
include `LOG_PERROR` (bit 5) the formatted message text followed by a newline is written to
standard error exactly once, and nothing is written there otherwise, whether the submission
succeeds or fails.  A permitted print that finds the handle absent writes nothing to
standard error, whatever the options were: the lazy open has replaced them by `LOG_PID`. -/
theorem C14_stderr_echo (s : syslog) (P : Platform) (p : Int) (format : List Char)
    (ap : va_list) (h0 : 0 ≤ p) (h7 : p ≤ 7) (hb : s._msk.testBit p.toNat = true) :
    (s._log ≠ NULL →
        stderrWrites (s.print P p format ap).2 =
          if s._opt.testBit 5 = true then [s.print_str P format ap ++ ['\n']] else []) ∧
      (s._log = NULL →
        stderrWrites (s.print P p format ap).2 = [] ∧ (s.print P p format ap).1._opt = LOG_PID) := by
  have hne := (mask_test_iff s._msk p h0 h7).mpr hb
  have hpe := perror_test_iff s._opt
  constructor
  · intro hl
    rw [print_open s P p format ap hne hl]
    simp only [c_str_print_str]
    by_cases he : s._opt.testBit 5 = true
    · have h1 := hpe.mpr he
      cases hok : P.ReportEventA s._log (evtype p) (s.print_str P format ap) <;>
        simp [stderrWrites, h1, he]
    · have h1 : bitand s._opt LOG_PERROR = 0 := by
        by_contra h2
        exact he (hpe.mp h2)
      cases hok : P.ReportEventA s._log (evtype p) (s.print_str P format ap) <;>
        simp [stderrWrites, h1, he]
  · intro hl
    rw [print_closed s P p format ap hne hl]
    refine ⟨?_, by simp [syslog.openl]⟩
    by_cases hr : P.RegisterEventSourceA (c_str (ident P none)) = NULL
    · simp [stderrWrites, hr]
    · cases hok : P.ReportEventA (P.RegisterEventSourceA (c_str (ident P none))) (evtype p)
          (c_str ((s.openl P none LOG_PID 0).1.print_str P format ap)) <;>
        simp [stderrWrites, hr, hok]

/-- C14 (amended) at a concrete input: the open example facade, whose options are
`LOG_PERROR`, on a host that rejects the submission. -/
theorem C14_stderr_echo_witness :
    (0 ≤ LOG_ERR ∧ LOG_ERR ≤ 7 ∧ openLog._msk.testBit LOG_ERR.toNat = true ∧
        openLog._log ≠ NULL ∧ openLog._opt.testBit 5 = true) ∧
      stderrWrites (openLog.print rejectingHost LOG_ERR "failed %d".toList [Arg.int 7]).2 =
        [openLog.print_str rejectingHost "failed %d".toList [Arg.int 7] ++ ['\n']] :=
  ⟨⟨by decide, by decide, by decide, by decide, by decide⟩,
    ((C14_stderr_echo openLog rejectingHost LOG_ERR "failed %d".toList [Arg.int 7]
      (by decide) (by decide) (by decide)).1 (by decide)).trans (if_pos (by decide))⟩

/-! ## Helper lemmas: the registry along a run -/

theorem held_of_null (s : syslog) (h : s._log = NULL) : s.held = none := by
  simp [syslog.held, h]

theorem held_of_ne (s : syslog) (h : s._log ≠ NULL) : s.held = some s._log := by
  simp [syslog.held, h]

/-- `close` hands the live handle, if any, back to the platform. -/
theorem registry_close (s : syslog) (tr : List Event) :
    registry s.held (s.close.2 ++ tr) = registry s.close.1.held tr := by
  by_cases h : s._log = NULL
  · simp [syslog.close, syslog.held, h]
  · simp [syslog.close, syslog.held, h, registry]

/-- `openl` registers only after the live handle is gone. -/
theorem registry_openl (s : syslog) (P : Platform) (id : Option (List Char))
    (option facility : Int) (tr : List Event) :
    registry s.held ((s.openl P id option facility).2 ++ tr) =
      registry (s.openl P id option facility).1.held tr := by
  have h1 : (s.openl P id option facility).2 =
      s.close.2 ++ [Event.RegisterEventSourceA (c_str (ident P id))
        (P.RegisterEventSourceA (c_str (ident P id)))] := rfl
  have h2 : s.close.1.held = none := held_of_null _ rfl
  rw [h1, List.append_assoc, registry_close, h2]
  simp [registry, syslog.held, syslog.openl]

/-- The dispatch part of `print` makes no call on the registry. -/
theorem registry_dispatch (live : Option HANDLE) (a : List Event)
    (ha : ∀ e ∈ a, (∃ t, e = Event.stderr t) ∨ (∃ t, e = Event.stdout t) ∨
      (∃ h ty strs ok, e = Event.ReportEventA h ty strs ok))
    (tr : List Event) : registry live (a ++ tr) = registry live tr := by
  induction a with
  | nil => rfl
  | cons e a ih =>
    have he := ha e (List.mem_cons_self _ _)
    have ha2 : ∀ e ∈ a, (∃ t, e = Event.stderr t) ∨ (∃ t, e = Event.stdout t) ∨
        (∃ h ty strs ok, e = Event.ReportEventA h ty strs ok) :=
      fun x hx => ha x (List.mem_cons_of_mem _ hx)
    rcases he with ⟨t, rfl⟩ | ⟨t, rfl⟩ | ⟨h, ty, strs, ok, rfl⟩ <;>
      simp [registry, ih ha2]

theorem registry_print (s : syslog) (P : Platform) (p : Int) (format : List Char)
    (ap : va_list) (tr : List Event) :
    registry s.held ((s.print P p format ap).2 ++ tr) =
      registry (s.print P p format ap).1.held tr := by
  by_cases hne : bitand s._msk (LOG_MASK p) = 0
  · rw [print_filtered s P p format ap hne]; rfl
  · by_cases hl : s._log = NULL
    · rw [print_closed s P p format ap hne hl]
      have h1 : (s.openl P none LOG_PID 0).2 =
          [Event.RegisterEventSourceA (c_str (ident P none))
            (P.RegisterEventSourceA (c_str (ident P none)))] := by
        simp [syslog.openl, syslog.close, hl]
      have h2 := registry_openl s P none LOG_PID 0
      rw [h1] at h2
      simp only [List.cons_append, List.nil_append] at h2 ⊢
      rw [h2]
      apply registry_dispatch
      intro e he
      split_ifs at he with hr hok
      · simp at he
        exact Or.inr (Or.inr ⟨_, _, _, _, he⟩)
      · simp at he
        rcases he with he | he
        · exact Or.inr (Or.inr ⟨_, _, _, _, he⟩)
        · exact Or.inr (Or.inl ⟨_, he⟩)
      · simp at he
    · rw [print_open s P p format ap hne hl]
      apply registry_dispatch
      intro e he
      rcases List.mem_append.mp he with he | he
      · split_ifs at he
        · simp at he
          exact Or.inl ⟨_, he⟩
        · simp at he
      · rcases List.mem_cons.mp he with he | he
        · exact Or.inr (Or.inr ⟨_, _, _, _, he⟩)
        · split_ifs at he
          · simp at he
          · simp at he
            exact Or.inr (Or.inl ⟨_, he⟩)

/-- Replaying a trace and then another continues from the handles left live. -/
theorem registry_append (a : List Event) : ∀ (tr : List Event) (l0 live : Option HANDLE),
    registry l0 a = some live → registry l0 (a ++ tr) = registry live tr := by
  induction a with
  | nil => intro tr l0 live hl; simp [registry] at hl; subst hl; rfl
  | cons e a ih =>
    intro tr l0 live hl
    cases e with
    | DeregisterEventSource log =>
      simp only [registry, List.cons_append] at hl ⊢
      split_ifs at hl ⊢ with hlive
      exact ih tr _ live hl
    | RegisterEventSourceA name result =>
      simp only [registry, List.cons_append] at hl ⊢
      cases l0 with
      | some x => simp at hl
      | none => exact ih tr _ live hl
    | ReportEventA a1 a2 a3 a4 =>
      simp only [registry, List.cons_append] at hl ⊢
      exact ih tr _ live hl
    | stderr t =>
      simp only [registry, List.cons_append] at hl ⊢
      exact ih tr _ live hl
    | stdout t =>
      simp only [registry, List.cons_append] at hl ⊢
      exact ih tr _ live hl

/-- The replay does reject what the invariant forbids: a deregistration with nothing live,
a second registration while a handle is live, a second deregistration of one handle. -/
theorem registry_rejects :
    registry none [Event.DeregisterEventSource 7] = none ∧
      registry none [Event.RegisterEventSourceA [] 7, Event.RegisterEventSourceA [] 8] = none ∧
      registry none [Event.RegisterEventSourceA [] 7, Event.DeregisterEventSource 7,
        Event.DeregisterEventSource 7] = none ∧
      registry none [Event.RegisterEventSourceA [] 7, Event.DeregisterEventSource 7,
        Event.RegisterEventSourceA [] NULL, Event.RegisterEventSourceA [] 8] = some (some 8) := by
  decide

theorem registry_step (s : syslog) (op : Op) (tr : List Event) :
    registry s.held ((op.step s).2 ++ tr) = registry (op.step s).1.held tr := by
  cases op with
  | close => exact registry_close s tr
  | maskl mask => rfl
  | openl P id option facility => exact registry_openl s P id option facility tr
  | print P p format ap => exact registry_print s P p format ap tr

theorem registry_run (ops : List Op) : ∀ (s : syslog),
    registry s.held (run s ops).2 = some (run s ops).1.held := by
  induction ops with
  | nil => intro s; rfl
  | cons op ops ih =>
    intro s
    simp only [run, andThen]
    rw [registry_step, ih]

/-! ## Lifecycle of the handle -/

/-- C15: `close()` makes one `DeregisterEventSource` call on the held handle if one is
held and no platform call otherwise, leaves the handle absent and mask and options as they
were; on a closed facade it changes nothing, and `close` followed by `close` has the effect
of a single `close`. -/
theorem C15_close_idempotent (s : syslog) :
    s.close.1 = { _log := NULL, _msk := s._msk, _opt := s._opt } ∧
      s.close.2 = (if s._log ≠ NULL then [Event.DeregisterEventSource s._log] else []) ∧
      (s._log = NULL → s.close = (s, [])) ∧
      s.close.1.close = (s.close.1, []) ∧
      andThen s.close syslog.close = s.close := by
  refine ⟨rfl, rfl, ?_, rfl, ?_⟩
  · intro h
    cases s
    simp only at h
    subst h
    rfl
  · simp [andThen, syslog.close]

/-- C16 (the code at the failing input): `maskl`, `openl` and `print` touch the data members
only while the mutex is held, in every state; `close`, called on its own as `closelog()`
and the destructor do, reads and writes `_log` with the mutex not held, because its lock
object is constructed without the mutex. -/
theorem C16_close_runs_unlocked (s : syslog) (P : Platform) (p : Int) :
    guarded 0 syslog.maskl_accesses = true ∧
      guarded 0 s.openl_accesses = true ∧
      guarded 0 (s.print_accesses P p) = true ∧
      guarded 0 s.close_accesses = false := by
  refine ⟨rfl, ?_, ?_, ?_⟩
  · by_cases h : s._log = NULL <;>
      simp [syslog.openl_accesses, syslog.close_accesses, guarded, h]
  · by_cases h : s._log = NULL <;>
      by_cases hm : bitand s._msk (LOG_MASK p) = 0 <;>
      by_cases hr : P.RegisterEventSourceA (c_str (ident P none)) = NULL <;>
      simp [syslog.print_accesses, syslog.openl_accesses, syslog.close_accesses, guarded,
        syslog.openl, syslog.close, h, hm, hr]
  · by_cases h : s._log = NULL <;> simp [syslog.close_accesses, guarded, h]

/-- C17: along every sequence of `close`, `maskl`, `openl` and `print` calls from the
freshly constructed facade, with any outcome of every platform call, the platform's
registry never sees a registration while a handle is live nor a deregistration of a handle
that is not live (so at most one handle is live, and each is deregistered exactly once,
before the next registration attempt or at `close`, never twice), and the handle the facade
stores is the live one: it is absent exactly when no registration has succeeded since the
last deregistration or construction.  A final `close`, as the destructor makes, leaves no
handle live. -/
theorem C17_single_live_handle (ops : List Op) :
    registry none (run syslog.ctor ops).2 = some (run syslog.ctor ops).1.held ∧
      ((run syslog.ctor ops).1._log = NULL ↔
        registry none (run syslog.ctor ops).2 = some none) ∧
      registry none ((run syslog.ctor ops).2 ++ ((run syslog.ctor ops).1.close).2)
        = some none := by
  have h := registry_run ops syslog.ctor
  have hc : syslog.ctor.held = none := rfl
  rw [hc] at h
  refine ⟨h, ?_, ?_⟩
  · rw [h]
    by_cases hl : (run syslog.ctor ops).1._log = NULL
    · simp [syslog.held, hl]
    · simp [syslog.held, hl]
  · rw [registry_append _ _ _ _ h]
    have h5 := registry_close (run syslog.ctor ops).1 []
    rw [List.append_nil] at h5
    rw [h5]
    rfl

/-! ## Lazy open, frame and facility -/

/-- C18, as the claim states it, fails: with the handle absent, on a host whose registration
fails, a permitted `print` makes one registration attempt, while `openl( nullptr, LOG_PID,
0 )` followed by `print` in the resulting state makes two. -/
theorem C18_counterexample :
    unregisteredLog._log = NULL ∧ unregisteredLog._msk.testBit LOG_ERR.toNat = true ∧
      (unregisteredLog.print failingHost LOG_ERR "failed %d".toList [Arg.int 7]).2 =
        [Event.RegisterEventSourceA [] NULL] ∧
      (andThen (unregisteredLog.openl failingHost none LOG_PID 0)
          (fun t => t.print failingHost LOG_ERR "failed %d".toList [Arg.int 7])).2 =
        [Event.RegisterEventSourceA [] NULL, Event.RegisterEventSourceA [] NULL] := by
  have hid : ident failingHost none = [] := ident_none_of_lookup_failure _ rfl
  have h1 : (unregisteredLog.print failingHost LOG_ERR "failed %d".toList [Arg.int 7]).2 =
      [Event.RegisterEventSourceA [] NULL] := by
    rw [print_closed _ _ _ _ _ (by decide) rfl, hid]
    rfl
  have h2 : unregisteredLog.openl failingHost none LOG_PID 0 =
      ({ _log := NULL, _msk := -1, _opt := LOG_PID }, [Event.RegisterEventSourceA [] NULL]) := by
    rw [openl_closed _ _ _ _ _ rfl, hid]
    rfl
  refine ⟨rfl, by decide, h1, ?_⟩
  simp only [andThen, h2]
  rw [print_closed _ _ _ _ _ (by decide) rfl, hid]
  rfl

/-- C18 (amended): for every state whose handle is absent and every permitted level, the
open of `print` happens before it formats: its state afterwards is that of `openl( nullptr, LOG_PID, 0 )`
(options exactly `LOG_PID`, mask unchanged, handle the result of the registration), its
platform calls start with those of that `openl` (one registration under the default
identity), and the text it formats carries the process id in front.  When that registration
succeeds, `print` is equivalent to `openl( nullptr, LOG_PID, 0 )` followed by `print` in
the resulting state; when it fails, `print` makes no further call. -/
theorem C18_lazy_open (s : syslog) (P : Platform) (p : Int) (format : List Char)
    (ap : va_list) (h0 : 0 ≤ p) (h7 : p ≤ 7) (hl : s._log = NULL)
    (hb : s._msk.testBit p.toNat = true) (hpid : P.pid < 2 ^ 32) :
    (s.print P p format ap).1 = (s.openl P none LOG_PID 0).1 ∧
      (s.openl P none LOG_PID 0).1 =
        { _log := P.RegisterEventSourceA (c_str (ident P none)), _msk := s._msk,
          _opt := LOG_PID } ∧
      (s.openl P none LOG_PID 0).2 =
        [Event.RegisterEventSourceA (c_str (ident P none))
          (P.RegisterEventSourceA (c_str (ident P none)))] ∧
      (∃ rest, (s.print P p format ap).2 = (s.openl P none LOG_PID 0).2 ++ rest ∧
        ∀ (h : HANDLE) (ty : WORD) (strs : List (List Char)) (ok : Bool),
          Event.ReportEventA h ty strs ok ∈ rest →
            strs = [Nat.toDigits 10 P.pid ++ ": ".toList ++ syslog.print_msg P format ap]) ∧
      (P.RegisterEventSourceA (c_str (ident P none)) ≠ NULL →
        s.print P p format ap =
          andThen (s.openl P none LOG_PID 0) (fun t => t.print P p format ap)) ∧
      (P.RegisterEventSourceA (c_str (ident P none)) = NULL →
        s.print P p format ap = s.openl P none LOG_PID 0) := by
  have hne := (mask_test_iff s._msk p h0 h7).mpr hb
  have hop := openl_closed s P none LOG_PID 0 hl
  have hst : (s.openl P none LOG_PID 0).1 =
      { _log := P.RegisterEventSourceA (c_str (ident P none)), _msk := s._msk,
        _opt := LOG_PID } := by rw [hop]
  have htr : (s.openl P none LOG_PID 0).2 =
      [Event.RegisterEventSourceA (c_str (ident P none))
        (P.RegisterEventSourceA (c_str (ident P none)))] := by rw [hop]
  have htxt : (s.openl P none LOG_PID 0).1.print_str P format ap =
      Nat.toDigits 10 P.pid ++ ": ".toList ++ syslog.print_msg P format ap :=
    print_str_pid _ P format ap (by rw [hst]) hpid
  have hpr := print_closed s P p format ap hne hl
  refine ⟨by rw [hpr], hst, htr, ?_, ?_, ?_⟩
  · have hc : c_str ((s.openl P none LOG_PID 0).1.print_str P format ap) =
        Nat.toDigits 10 P.pid ++ ": ".toList ++ syslog.print_msg P format ap := by
      rw [c_str_print_str, htxt]
    rw [hpr, htr]
    simp only [hc]
    by_cases hr : P.RegisterEventSourceA (c_str (ident P none)) = NULL
    · refine ⟨[], ?_, ?_⟩
      · simp only [hr, ne_eq, not_true_eq_false, if_false, List.append_nil]
      · intro h ty strs ok hm
        cases hm
    · cases hok : P.ReportEventA (P.RegisterEventSourceA (c_str (ident P none))) (evtype p)
          (Nat.toDigits 10 P.pid ++ ": ".toList ++ syslog.print_msg P format ap)
      · refine ⟨[Event.ReportEventA (P.RegisterEventSourceA (c_str (ident P none))) (evtype p)
            [Nat.toDigits 10 P.pid ++ ": ".toList ++ syslog.print_msg P format ap] false,
          Event.stdout (Nat.toDigits 10 P.pid ++ ": ".toList ++ syslog.print_msg P format ap
            ++ ['\n'])], ?_, ?_⟩
        · simp only [hr, ne_eq, not_false_eq_true, if_true, Bool.false_eq_true, if_false,
            List.cons_append, List.nil_append]
        · intro h ty strs ok hm
          rcases List.mem_cons.mp hm with h1 | h1
          · exact (Event.ReportEventA.inj h1).2.2.1
          · rcases List.mem_cons.mp h1 with h2 | h2
            · cases h2
            · cases h2
      · refine ⟨[Event.ReportEventA (P.RegisterEventSourceA (c_str (ident P none))) (evtype p)
            [Nat.toDigits 10 P.pid ++ ": ".toList ++ syslog.print_msg P format ap] true],
          ?_, ?_⟩
        · simp only [hr, ne_eq, not_false_eq_true, if_true, List.cons_append, List.nil_append]
        · intro h ty strs ok hm
          rcases List.mem_cons.mp hm with h1 | h1
          · exact (Event.ReportEventA.inj h1).2.2.1
          · cases h1
  · intro hr
    have hne2 : bitand (s.openl P none LOG_PID 0).1._msk (LOG_MASK p) ≠ 0 := by
      rw [hst]; exact hne
    have hl2 : (s.openl P none LOG_PID 0).1._log ≠ NULL := by
      rw [hst]; exact hr
    have hpe : bitand LOG_PID LOG_PERROR = 0 := by decide
    have ho : (s.openl P none LOG_PID 0).1._opt = LOG_PID := by rw [hst]
    simp only [andThen]
    rw [print_open _ P p format ap hne2 hl2, hpr, ho]
    simp only [hpe, ne_eq, not_true_eq_false, if_false, List.nil_append, hr, not_false_eq_true,
      if_true, htr, List.cons_append, hst]
  · intro hr
    rw [hpr]
    simp only [hr, ne_eq, not_true_eq_false, if_false]
    rw [Prod.ext_iff]
    exact ⟨rfl, by rw [htr, hr]⟩

/-- C18 (amended) at a concrete input: the closed example facade printing at `LOG_ERR` on
the host where every call succeeds. -/
theorem C18_lazy_open_witness :
    (0 ≤ LOG_ERR ∧ LOG_ERR ≤ 7 ∧ unregisteredLog._log = NULL ∧
        unregisteredLog._msk.testBit LOG_ERR.toNat = true ∧ exampleHost.pid < 2 ^ 32 ∧
        exampleHost.RegisterEventSourceA (c_str (ident exampleHost none)) ≠ NULL) ∧
      (unregisteredLog.print exampleHost LOG_ERR "failed %d".toList [Arg.int 7]).1 =
        (unregisteredLog.openl exampleHost none LOG_PID 0).1 ∧
      unregisteredLog.print exampleHost LOG_ERR "failed %d".toList [Arg.int 7] =
        andThen (unregisteredLog.openl exampleHost none LOG_PID 0)
          (fun t => t.print exampleHost LOG_ERR "failed %d".toList [Arg.int 7]) :=
  ⟨⟨by decide, by decide, rfl, by decide, by decide, by decide⟩,
    (C18_lazy_open unregisteredLog exampleHost LOG_ERR "failed %d".toList [Arg.int 7]
      (by decide) (by decide) rfl (by decide) (by decide)).1,
    (C18_lazy_open unregisteredLog exampleHost LOG_ERR "failed %d".toList [Arg.int 7]
      (by decide) (by decide) rfl (by decide) (by decide)).2.2.2.2.1 (by decide)⟩

/-- C19: `print` never changes the priority mask; it leaves the whole state unchanged when
the level is filtered out by the mask or a handle is already present; and a filtered print
makes no platform call and uses nothing of the platform: whatever the host, the format and
the arguments, it returns the state as it was with an empty trace.  For the eight levels,
filtered means that bit `p` of the mask is clear. -/
theorem C19_print_frame (s : syslog) (P : Platform) (p : Int) (format : List Char)
    (ap : va_list) :
    (s.print P p format ap).1._msk = s._msk ∧
      (bitand s._msk (LOG_MASK p) = 0 ∨ s._log ≠ NULL → (s.print P p format ap).1 = s) ∧
      (bitand s._msk (LOG_MASK p) = 0 →
        ∀ (P2 : Platform) (format2 : List Char) (ap2 : va_list),
          s.print P2 p format2 ap2 = (s, [])) ∧
      (0 ≤ p → p ≤ 7 → s._msk.testBit p.toNat = false →
        ∀ (P2 : Platform) (format2 : List Char) (ap2 : va_list),
          s.print P2 p format2 ap2 = (s, [])) := by
  refine ⟨?_, ?_, ?_, ?_⟩
  · by_cases hne : bitand s._msk (LOG_MASK p) = 0
    · rw [print_filtered s P p format ap hne]
    · by_cases hl : s._log = NULL
      · rw [print_closed s P p format ap hne hl]
        simp [syslog.openl, syslog.close]
      · rw [print_open s P p format ap hne hl]
  · intro h
    by_cases hne : bitand s._msk (LOG_MASK p) = 0
    · rw [print_filtered s P p format ap hne]
    · rcases h with h | h
      · exact absurd h hne
      · rw [print_open s P p format ap hne h]
  · intro hz P2 format2 ap2
    exact print_filtered s P2 p format2 ap2 hz
  · intro h0 h7 hb P2 format2 ap2
    apply print_filtered
    by_contra hne
    rw [(mask_test_iff s._msk p h0 h7).mp hne] at hb
    cases hb

/-- C20: `openl( identity, option, facility )` stores `option` verbatim as the options,
leaves the mask unchanged, stores the result of the registration as the handle, and makes
the platform calls "deregister the old handle, if any; register under the normalised
identity"; for any two facility values the resulting state and the platform calls are the
same. -/
theorem C20_openl_ignores_facility (s : syslog) (P : Platform) (id : Option (List Char))
    (option facility : Int) :
    (s.openl P id option facility).1 =
        { _log := P.RegisterEventSourceA (c_str (ident P id)), _msk := s._msk,
          _opt := option } ∧
      (s.openl P id option facility).2 =
        (if s._log ≠ NULL then [Event.DeregisterEventSource s._log] else []) ++
          [Event.RegisterEventSourceA (c_str (ident P id))
            (P.RegisterEventSourceA (c_str (ident P id)))] ∧
      ∀ f1 f2 : Int, s.openl P id option f1 = s.openl P id option f2 := by
  refine ⟨rfl, rfl, ?_⟩
  intro f1 f2
  rfl

end syslog_win32_impl
